import Mathlib

/-!
Verification development for the `backand` market-alerting engine.

The Python source is shallowly embedded: every `def`/`structure` below mirrors a
function or data shape of the repository (the source file and function are named
in each doc comment).  Python `float` arithmetic is modelled exactly over `ℚ`,
Python `int` over `ℤ`, dictionaries keyed by strings as partial maps
`String → Option α`, and the wall clock as an explicit `now : ℤ` parameter
standing for `AlertManager._get_current_timestamp_ms`.  Database queries and
other external collaborators are passed in as explicit inputs (the list of
historical volumes, the recent-candle windows, the stored candle rows).
Presentation-only fields of the Python alert dictionaries (the human-readable
`message` strings and the always-`None` order-book snapshot stub) are omitted;
every field inspected by any control flow is modelled.
-/

/-- Partial-map update, modelling assignment `d[k] = v` on a Python dict. -/
def mapSet {α : Type} (d : String → Option α) (k : String) (v : α) : String → Option α :=
  fun k' => if k' = k then some v else d k'

/-- Partial-map removal, modelling `del d[k]` on a Python dict. -/
def mapErase {α : Type} (d : String → Option α) (k : String) : String → Option α :=
  fun k' => if k' = k then none else d k'

/-- Python `int()` applied to a nonnegative or negative rational: truncation toward zero. -/
def pyTrunc (q : ℚ) : ℤ := if 0 ≤ q then ⌊q⌋ else -⌊-q⌋

/-- Round-half-to-even to an integer, the rounding used by Python `round`. -/
def roundHalfEven (q : ℚ) : ℤ :=
  let f := ⌊q⌋
  let r := q - f
  if r < 1/2 then f else if 1/2 < r then f + 1 else if f % 2 = 0 then f else f + 1

/-- Python `round(q, 2)`: round to two decimal places, halves to even. -/
def pyRound2 (q : ℚ) : ℚ := (roundHalfEven (q * 100) : ℚ) / 100

/-- Python `max` over a nonempty list of rationals (`0` on `[]`, an unreachable case). -/
def listMax : List ℚ → ℚ
  | [] => 0
  | h :: t => t.foldl max h

/-- Python `min` over a nonempty list of rationals (`0` on `[]`, an unreachable case). -/
def listMin : List ℚ → ℚ
  | [] => 0
  | h :: t => t.foldl min h

/-- One incoming kline tick as handed to `AlertManager.process_kline_data`
(`src/backand/alert/alert_manager.py`): the price/volume fields and the venue
`confirm` flag.  The `start`/`end` timestamps are not read by the alert
pipeline and are omitted. -/
structure Kline where
  open_ : ℚ
  high : ℚ
  low : ℚ
  close : ℚ
  volume : ℚ
  confirm : Bool
deriving DecidableEq

/-- The `candle_data` sub-dictionary attached to alerts
(`alert_manager.py`, e.g. lines 175–182).  `alert_level` is absent from the
consecutive-long alert's candle data, hence optional. -/
structure CandleData where
  open_ : ℚ
  high : ℚ
  low : ℚ
  close : ℚ
  volume : ℚ
  alert_level : Option ℚ
deriving DecidableEq

/-- The `type` tag of an imbalance (`alert_imbalance.py`: the string literals
`'fair_value_gap'`, `'order_block'`, `'breaker_block'`). -/
inductive ImbKind where
  | fair_value_gap
  | order_block
  | breaker_block
deriving DecidableEq

/-- The `direction` tag of an imbalance (`'bullish'` / `'bearish'`). -/
inductive ImbDirection where
  | bullish
  | bearish
deriving DecidableEq

/-- An imbalance result dictionary as built by `ImbalanceAnalyzer`
(`src/backand/alert/alert_imbalance.py`). -/
structure ImbalanceValue where
  type_ : ImbKind
  direction : ImbDirection
  strength : ℚ
  top : ℚ
  bottom : ℚ
  timestamp : ℤ
deriving DecidableEq

/-- A candle row as returned by `DatabaseQueries.get_recent_candles`
(`src/backand/database/database_queries.py` lines 182–213), the input shape of
the imbalance analyzer. -/
structure DbCandle where
  timestamp : ℤ
  open_ : ℚ
  high : ℚ
  low : ℚ
  close : ℚ
  volume : ℚ
  is_long : Bool
  is_closed : Bool
deriving DecidableEq

/-- The configuration fields of `ImbalanceAnalyzer.__init__`
(`alert_imbalance.py` lines 11–16). -/
structure ImbalanceSettings where
  min_gap_percentage : ℚ
  min_strength : ℚ
  fair_value_gap_enabled : Bool
  order_block_enabled : Bool
  breaker_block_enabled : Bool
deriving DecidableEq

/-- `ImbalanceAnalyzer.analyze_fair_value_gap` (`alert_imbalance.py` lines 18–59).
Uses the last three candles; a bullish gap that fails the `min_gap_percentage`
gate falls through to the bearish test, exactly as in the source. -/
def analyze_fair_value_gap (ia : ImbalanceSettings) (candles : List DbCandle) :
    Option ImbalanceValue :=
  if ¬ia.fair_value_gap_enabled ∨ candles.length < 3 then none
  else
    match candles.reverse with
    | next_candle :: current_candle :: prev_candle :: _ =>
      let bull : Option ImbalanceValue :=
        if prev_candle.low > next_candle.high ∧ current_candle.is_long then
          let gap_size := (prev_candle.low - next_candle.high) / next_candle.high * 100
          if gap_size ≥ ia.min_gap_percentage then
            some { type_ := .fair_value_gap, direction := .bullish, strength := gap_size,
                   top := prev_candle.low, bottom := next_candle.high,
                   timestamp := current_candle.timestamp }
          else none
        else none
      match bull with
      | some r => some r
      | none =>
        if prev_candle.high < next_candle.low ∧ ¬current_candle.is_long then
          let gap_size := (next_candle.low - prev_candle.high) / prev_candle.high * 100
          if gap_size ≥ ia.min_gap_percentage then
            some { type_ := .fair_value_gap, direction := .bearish, strength := gap_size,
                   top := next_candle.low, bottom := prev_candle.high,
                   timestamp := current_candle.timestamp }
          else none
        else none
    | _ => none

/-- `ImbalanceAnalyzer.analyze_order_block` (`alert_imbalance.py` lines 61–112).
`window` is `candles[-10:-1]`; the source iterates it in reverse, which is the
`take 9` of the reversed list. -/
def analyze_order_block (ia : ImbalanceSettings) (candles : List DbCandle) :
    Option ImbalanceValue :=
  if ¬ia.order_block_enabled ∨ candles.length < 10 then none
  else
    match candles.reverse with
    | current_candle :: rest =>
      let window_rev := rest.take 9
      let last_bearish := window_rev.find? (fun c => !c.is_long)
      let bull : Option ImbalanceValue :=
        match last_bearish with
        | some lb =>
          if current_candle.is_long then
            let price_move := (current_candle.close - lb.high) / lb.high * 100
            if price_move ≥ 2 then
              some { type_ := .order_block, direction := .bullish, strength := price_move,
                     top := lb.high, bottom := lb.low, timestamp := lb.timestamp }
            else none
          else none
        | none => none
      match bull with
      | some r => some r
      | none =>
        let last_bullish := window_rev.find? (fun c => c.is_long)
        match last_bullish with
        | some lb =>
          if ¬current_candle.is_long then
            let price_move := (lb.low - current_candle.close) / lb.low * 100
            if price_move ≥ 2 then
              some { type_ := .order_block, direction := .bearish, strength := price_move,
                     top := lb.high, bottom := lb.low, timestamp := lb.timestamp }
            else none
          else none
        | none => none
    | [] => none

/-- `ImbalanceAnalyzer.analyze_breaker_block` (`alert_imbalance.py` lines 114–161).
`window` is `candles[-15:-1]`, i.e. the 14 candles before the last. -/
def analyze_breaker_block (ia : ImbalanceSettings) (candles : List DbCandle) :
    Option ImbalanceValue :=
  if ¬ia.breaker_block_enabled ∨ candles.length < 15 then none
  else
    match candles.reverse with
    | current_candle :: rest =>
      let window := rest.take 14
      let max_high := listMax (window.map (·.high))
      let min_low := listMin (window.map (·.low))
      let bull : Option ImbalanceValue :=
        if current_candle.close > max_high ∧ current_candle.is_long then
          let strength := (current_candle.close - max_high) / max_high * 100
          if strength ≥ 1 then
            some { type_ := .breaker_block, direction := .bullish, strength := strength,
                   top := max_high, bottom := min_low, timestamp := current_candle.timestamp }
          else none
        else none
      match bull with
      | some r => some r
      | none =>
        if current_candle.close < min_low ∧ ¬current_candle.is_long then
          let strength := (min_low - current_candle.close) / min_low * 100
          if strength ≥ 1 then
            some { type_ := .breaker_block, direction := .bearish, strength := strength,
                   top := max_high, bottom := min_low, timestamp := current_candle.timestamp }
          else none
        else none
    | [] => none

/-- `ImbalanceAnalyzer.analyze_all_imbalances` (`alert_imbalance.py` lines 163–188):
FVG, then order block, then breaker block, each gated by its feature flag and by
`strength ≥ min_strength`; the first that passes wins. -/
def analyze_all_imbalances (ia : ImbalanceSettings) (candles : List DbCandle) :
    Option ImbalanceValue :=
  let step1 : Option ImbalanceValue :=
    if ia.fair_value_gap_enabled then
      match analyze_fair_value_gap ia candles with
      | some fvg => if fvg.strength ≥ ia.min_strength then some fvg else none
      | none => none
    else none
  match step1 with
  | some r => some r
  | none =>
    let step2 : Option ImbalanceValue :=
      if ia.order_block_enabled then
        match analyze_order_block ia candles with
        | some ob => if ob.strength ≥ ia.min_strength then some ob else none
        | none => none
      else none
    match step2 with
    | some r => some r
    | none =>
      if ia.breaker_block_enabled then
        match analyze_breaker_block ia candles with
        | some bb => if bb.strength ≥ ia.min_strength then some bb else none
        | none => none
      else none

/-- `AlertManager._analyze_imbalance` (`alert_manager.py` lines 526–540): fetch up
to 20 recent candles (passed here as an input) and analyze them only when at
least 15 are available. -/
def analyze_imbalance_of (ia : ImbalanceSettings) (candles : List DbCandle) :
    Option ImbalanceValue :=
  if candles.length < 15 then none else analyze_all_imbalances ia candles

/-- The configuration fields of `AlertManager.__init__` read by the signal path
(`alert_manager.py` lines 24–45); the validators (`AlertValidators.__init__`,
`alert_validators.py` lines 12–16) read the same keys, so one record serves both. -/
structure AlertSettings where
  volume_alerts_enabled : Bool
  consecutive_alerts_enabled : Bool
  priority_alerts_enabled : Bool
  volume_multiplier : ℚ
  min_volume_usdt : ℚ
  consecutive_long_count : ℤ
  alert_grouping_minutes : ℤ
  imbalance_enabled : Bool
deriving DecidableEq

/-- An alert dictionary as assembled by `AlertManager`.  Fields that a given
alert kind does not set are `none`, mirroring absent dictionary keys.  The
`message` string and the always-`None` `order_book_snapshot` are omitted
(presentation only). -/
structure AlertData where
  symbol : String
  alert_type : String
  price : ℚ
  volume_ratio : Option ℚ
  current_volume_usdt : Option ℤ
  average_volume_usdt : Option ℤ
  consecutive_count : Option ℤ
  timestamp : ℤ
  close_timestamp : Option ℤ
  is_closed : Bool
  is_true_signal : Option Bool
  is_preliminary : Option Bool
  has_imbalance : Option Bool
  imbalance_data : Option ImbalanceValue
  candle_data : Option CandleData
  preliminary_timestamp : Option ℤ
deriving DecidableEq

/-- The mutable per-manager state (`alert_manager.py` lines 51–58):
`alert_cooldowns`, `consecutive_long_counters`, `preliminary_signals`. -/
structure AlertManagerState where
  alert_cooldowns : String → Option ℤ
  consecutive_long_counters : String → Option ℤ
  preliminary_signals : String → Option AlertData

/-- The empty dictionaries of `AlertManager.__init__`. -/
def initialAlertState : AlertManagerState :=
  { alert_cooldowns := fun _ => none
    consecutive_long_counters := fun _ => none
    preliminary_signals := fun _ => none }

/-- Result of `AlertValidators.validate_volume_alert`: either a rejection (the
tag names the source's rejection branch) or the computed payload. -/
inductive VolumeValidation where
  | invalid (reason : String)
  | valid (current_volume_usdt : ℤ) (average_volume_usdt : ℤ) (ratio : ℚ)
deriving DecidableEq

/-- The guarded ratio `current / average if average > 0 else 0`, shared verbatim
by `alert_validators.py` line 57 and `alert_manager.py` line 254. -/
def volumeRatioOf (current_volume_usdt average_volume : ℚ) : ℚ :=
  if average_volume > 0 then current_volume_usdt / average_volume else 0

/-- `AlertValidators.validate_volume_alert` (`alert_validators.py` lines 18–75).
`now` stands for the fresh UTC timestamp the source takes inside the cooldown
check; `last_alert_timestamp = some 0` is skipped like Python's falsy `0`. -/
def validate_volume_alert (s : AlertSettings) (kline : Kline)
    (historical_volumes : List ℚ) (last_alert_timestamp : Option ℤ) (now : ℤ) :
    VolumeValidation :=
  if ¬(kline.close > kline.open_) then .invalid "not_long"
  else
    let current_volume_usdt := kline.volume * kline.close
    if current_volume_usdt < s.min_volume_usdt then .invalid "below_min_volume"
    else if (match last_alert_timestamp with
             | some t => decide (t ≠ 0) &&
                 decide (now - t < s.alert_grouping_minutes * 60 * 1000)
             | none => false) then .invalid "cooldown"
    else if historical_volumes.length < 10 then .invalid "insufficient_history"
    else
      let average_volume := historical_volumes.sum / historical_volumes.length
      let ratio := volumeRatioOf current_volume_usdt average_volume
      if ratio < s.volume_multiplier then .invalid "below_multiplier"
      else .valid (pyTrunc current_volume_usdt) (pyTrunc average_volume) (pyRound2 ratio)

/-- Result of `AlertValidators.validate_priority_alert`. -/
inductive PriorityValidation where
  | invalid (reason : String)
  | valid (consecutive_count : ℤ)
deriving DecidableEq

/-- `AlertValidators.validate_priority_alert` (`alert_validators.py` lines 110–142).
`volume_alert`/`consecutive_alert` carry the `'valid'` flags of the dictionaries
the caller passes (plus the consecutive count). -/
def validate_priority_alert (volume_alert : Option Bool)
    (consecutive_alert : Option (Bool × ℤ)) (recent_volume_alert : Bool) :
    PriorityValidation :=
  match consecutive_alert with
  | none => .invalid "no_consecutive"
  | some (cvalid, ccount) =>
    if ¬cvalid then .invalid "no_consecutive"
    else if ¬(volume_alert.getD false || recent_volume_alert) then
      .invalid "no_volume_signal"
    else .valid ccount

/-- `AlertManager._check_preliminary_volume_signal` (`alert_manager.py`
lines 224–291), for an unconfirmed tick. -/
def check_preliminary_volume_signal (s : AlertSettings) (symbol : String)
    (kline : Kline) (historical_volumes : List ℚ) (now : ℤ) : Option AlertData :=
  let current_price := kline.close
  let open_price := kline.open_
  if ¬(current_price > open_price) then none
  else
    let current_volume_usdt := kline.volume * current_price
    if current_volume_usdt < s.min_volume_usdt then none
    else if historical_volumes.length < 10 then none
    else
      let average_volume := historical_volumes.sum / historical_volumes.length
      let ratio := volumeRatioOf current_volume_usdt average_volume
      if ratio < s.volume_multiplier then none
      else some
        { symbol := symbol
          alert_type := "preliminary_volume_spike"
          price := current_price
          volume_ratio := some (pyRound2 ratio)
          current_volume_usdt := some (pyTrunc current_volume_usdt)
          average_volume_usdt := some (pyTrunc average_volume)
          consecutive_count := none
          timestamp := now
          close_timestamp := none
          is_closed := false
          is_true_signal := none
          is_preliminary := some true
          has_imbalance := none
          imbalance_data := none
          candle_data := some
            { open_ := open_price, high := kline.high, low := kline.low
              close := current_price, volume := kline.volume
              alert_level := some current_price }
          preliminary_timestamp := none }

/-- `AlertManager._check_final_volume_signal` (`alert_manager.py` lines 293–339):
given the pending preliminary signal (if any), always builds the final alert
carrying the preliminary's volume fields and timestamp. -/
def check_final_volume_signal (preliminary : Option AlertData) (symbol : String)
    (kline : Kline) (now : ℤ) : Option AlertData :=
  match preliminary with
  | none => none
  | some p =>
    let close_price := kline.close
    let open_price := kline.open_
    let is_true_long := decide (close_price > open_price)
    some
      { symbol := symbol
        alert_type := "final_volume_spike"
        price := close_price
        volume_ratio := p.volume_ratio
        current_volume_usdt := p.current_volume_usdt
        average_volume_usdt := p.average_volume_usdt
        consecutive_count := none
        timestamp := now
        close_timestamp := some now
        is_closed := true
        is_true_signal := some is_true_long
        is_preliminary := some false
        has_imbalance := none
        imbalance_data := none
        candle_data := some
          { open_ := open_price, high := kline.high, low := kline.low
            close := close_price, volume := kline.volume
            alert_level := some close_price }
        preliminary_timestamp := some p.timestamp }

/-- `AlertManager._update_consecutive_long_counter` (`alert_manager.py`
lines 341–359): increment on a long candle, delete the key otherwise. -/
def update_consecutive_long_counter (counters : String → Option ℤ)
    (symbol : String) (kline : Kline) : String → Option ℤ :=
  if kline.close > kline.open_ then
    mapSet counters symbol ((counters symbol).getD 0 + 1)
  else mapErase counters symbol

/-- `AlertManager._check_volume_alert` (`alert_manager.py` lines 149–222).
`imb` is the result the external `_analyze_imbalance` DB query would produce; the
source consults it only when `imbalance_enabled`.  Returns the alert (if any) and
the updated `alert_cooldowns`. -/
def check_volume_alert (s : AlertSettings) (cooldowns : String → Option ℤ)
    (symbol : String) (kline : Kline) (historical_volumes : List ℚ) (now : ℤ)
    (imb : Option ImbalanceValue) : Option AlertData × (String → Option ℤ) :=
  match validate_volume_alert s kline historical_volumes (cooldowns symbol) now with
  | .invalid _ => (none, cooldowns)
  | .valid cv av vr =>
    let imbalance_data := if s.imbalance_enabled then imb else none
    let has_imbalance := imbalance_data.isSome
    (some
      { symbol := symbol
        alert_type := "volume_spike"
        price := kline.close
        volume_ratio := some vr
        current_volume_usdt := some cv
        average_volume_usdt := some av
        consecutive_count := none
        timestamp := now
        close_timestamp := some now
        is_closed := true
        is_true_signal := some true
        is_preliminary := none
        has_imbalance := some has_imbalance
        imbalance_data := imbalance_data
        candle_data := some
          { open_ := kline.open_, high := kline.high, low := kline.low
            close := kline.close, volume := kline.volume
            alert_level := some kline.close }
        preliminary_timestamp := none },
     mapSet cooldowns symbol now)

/-- `AlertManager._check_consecutive_long_alert` (`alert_manager.py`
lines 361–421).  The cooldown lives under the independent key
`symbol ++ "_consecutive"`; a stored timestamp `0` is falsy and skipped. -/
def check_consecutive_long_alert (s : AlertSettings)
    (cooldowns : String → Option ℤ) (counters : String → Option ℤ)
    (symbol : String) (kline : Kline) (now : ℤ) (imb : Option ImbalanceValue) :
    Option AlertData × (String → Option ℤ) :=
  let consecutive_count := (counters symbol).getD 0
  if consecutive_count < s.consecutive_long_count then (none, cooldowns)
  else
    let last_alert_key := symbol ++ "_consecutive"
    if (match cooldowns last_alert_key with
        | some t => decide (t ≠ 0) &&
            decide (now - t < s.alert_grouping_minutes * 60 * 1000)
        | none => false) then (none, cooldowns)
    else
      (some
        { symbol := symbol
          alert_type := "consecutive_long"
          price := kline.close
          volume_ratio := none
          current_volume_usdt := none
          average_volume_usdt := none
          consecutive_count := some consecutive_count
          timestamp := now
          close_timestamp := some now
          is_closed := true
          is_true_signal := none
          is_preliminary := none
          has_imbalance := some imb.isSome
          imbalance_data := imb
          candle_data := some
            { open_ := kline.open_, high := kline.high, low := kline.low
              close := kline.close, volume := kline.volume
              alert_level := none }
          preliminary_timestamp := none },
       mapSet cooldowns last_alert_key now)

/-- `AlertManager._check_recent_volume_alert_in_range` (`alert_manager.py`
lines 500–524): a volume cooldown or a pending preliminary within the last
`candles_back` minutes. -/
def check_recent_volume_alert_in_range (cooldowns : String → Option ℤ)
    (preliminaries : String → Option AlertData) (symbol : String)
    (candles_back : ℤ) (now : ℤ) : Bool :=
  let time_range_ms := candles_back * 60 * 1000
  (match cooldowns symbol with
   | some t => decide (t ≠ 0) && decide (now - t ≤ time_range_ms)
   | none => false) ||
  (match preliminaries symbol with
   | some p => decide (now - p.timestamp ≤ time_range_ms)
   | none => false)

/-- One iteration of the `for alert in current_alerts` loop of
`_check_priority_signal` (`alert_manager.py` lines 430–434). -/
def pickStep (acc : Option AlertData × Option AlertData) (a : AlertData) :
    Option AlertData × Option AlertData :=
  if a.alert_type = "volume_spike" ∨ a.alert_type = "final_volume_spike" then
    (some a, acc.2)
  else if a.alert_type = "consecutive_long" then (acc.1, some a)
  else acc

/-- The `for alert in current_alerts` loop of `_check_priority_signal`: the last
volume-class alert and the last consecutive-class alert in the batch. -/
def pickBatchAlerts (current_alerts : List AlertData) :
    Option AlertData × Option AlertData :=
  current_alerts.foldl pickStep (none, none)

/-- `AlertManager._check_priority_signal` (`alert_manager.py` lines 423–498),
reading the cooldowns and preliminary signals as they stand after the earlier
checks of the same closed-candle batch. -/
def check_priority_signal (cooldowns : String → Option ℤ)
    (preliminaries : String → Option AlertData) (symbol : String)
    (current_alerts : List AlertData) (now : ℤ) : Option AlertData :=
  let pick := pickBatchAlerts current_alerts
  let volume_alert := pick.1
  let consecutive_alert := pick.2
  let recent_volume_alert :=
    match consecutive_alert with
    | some c =>
        check_recent_volume_alert_in_range cooldowns preliminaries symbol
          ((c.consecutive_count).getD 0) now
    | none => false
  match validate_priority_alert (volume_alert.map fun _ => true)
      (consecutive_alert.map fun c => (true, (c.consecutive_count).getD 0))
      recent_volume_alert with
  | .invalid _ => none
  | .valid _ =>
    match consecutive_alert with
    | none => none
    | some c =>
      let candle_data :=
        match volume_alert with
        | some v => match v.candle_data with
          | some cd => some cd
          | none => c.candle_data
        | none => c.candle_data
      let (has_imbalance, imbalance_data) :=
        match volume_alert with
        | some v =>
          if v.has_imbalance.getD false then (true, v.imbalance_data)
          else if c.has_imbalance.getD false then (true, c.imbalance_data)
          else (false, none)
        | none =>
          if c.has_imbalance.getD false then (true, c.imbalance_data)
          else (false, none)
      some
        { symbol := symbol
          alert_type := "priority"
          price := c.price
          volume_ratio := match volume_alert with
            | some v => v.volume_ratio
            | none => none
          current_volume_usdt := match volume_alert with
            | some v => v.current_volume_usdt
            | none => none
          average_volume_usdt := match volume_alert with
            | some v => v.average_volume_usdt
            | none => none
          consecutive_count := some ((c.consecutive_count).getD 0)
          timestamp := now
          close_timestamp := some now
          is_closed := true
          is_true_signal := none
          is_preliminary := none
          has_imbalance := some has_imbalance
          imbalance_data := imbalance_data
          candle_data := candle_data
          preliminary_timestamp := none }

/-- The pending-preliminary finalisation of `_process_closed_candle`
(`alert_manager.py` lines 119–124): the final alert produced when a preliminary
signal is pending (`_check_final_volume_signal` always succeeds on a pending
signal). -/
def pcc_finalOpt (st : AlertManagerState) (symbol : String) (kline : Kline)
    (now : ℤ) : Option AlertData :=
  match st.preliminary_signals symbol with
  | some p => check_final_volume_signal (some p) symbol kline now
  | none => none

/-- The preliminary-signal dictionary after `_process_closed_candle`: the pending
entry for `symbol` is deleted whenever it existed (`alert_manager.py` line 124). -/
def pcc_preliminaries1 (st : AlertManagerState) (symbol : String) :
    String → Option AlertData :=
  match st.preliminary_signals symbol with
  | some _ => mapErase st.preliminary_signals symbol
  | none => st.preliminary_signals

/-- The volume-alert step of `_process_closed_candle` (`alert_manager.py`
lines 126–130), gated by `volume_alerts_enabled`: the optional alert and the
cooldown dictionary it leaves behind. -/
def pcc_volRes (s : AlertSettings) (ia : ImbalanceSettings)
    (st : AlertManagerState) (symbol : String) (kline : Kline)
    (historical_volumes : List ℚ) (recentV : List DbCandle) (now : ℤ) :
    Option AlertData × (String → Option ℤ) :=
  if s.volume_alerts_enabled then
    check_volume_alert s st.alert_cooldowns symbol kline historical_volumes now
      (analyze_imbalance_of ia recentV)
  else (none, st.alert_cooldowns)

/-- The consecutive-long step of `_process_closed_candle` (`alert_manager.py`
lines 132–136), seeing the cooldowns left by the volume step and the updated
counter. -/
def pcc_consRes (s : AlertSettings) (ia : ImbalanceSettings)
    (st : AlertManagerState) (symbol : String) (kline : Kline)
    (historical_volumes : List ℚ) (recentV recentC : List DbCandle) (now : ℤ) :
    Option AlertData × (String → Option ℤ) :=
  let cooldowns1 := (pcc_volRes s ia st symbol kline historical_volumes recentV now).2
  if s.consecutive_alerts_enabled then
    check_consecutive_long_alert s cooldowns1
      (update_consecutive_long_counter st.consecutive_long_counters symbol kline)
      symbol kline now (analyze_imbalance_of ia recentC)
  else (none, cooldowns1)

/-- The alert batch of `_process_closed_candle` before the priority step: final,
volume and consecutive alerts in emission order. -/
def pcc_batch (s : AlertSettings) (ia : ImbalanceSettings)
    (st : AlertManagerState) (symbol : String) (kline : Kline)
    (historical_volumes : List ℚ) (recentV recentC : List DbCandle) (now : ℤ) :
    List AlertData :=
  (pcc_finalOpt st symbol kline now).toList ++
    (pcc_volRes s ia st symbol kline historical_volumes recentV now).1.toList ++
    (pcc_consRes s ia st symbol kline historical_volumes recentV recentC now).1.toList

/-- The priority step of `_process_closed_candle` (`alert_manager.py`
lines 138–142): it inspects the batch built so far, the cooldowns as updated by
the earlier steps, and the preliminary dictionary after deletion. -/
def pcc_prioOpt (s : AlertSettings) (ia : ImbalanceSettings)
    (st : AlertManagerState) (symbol : String) (kline : Kline)
    (historical_volumes : List ℚ) (recentV recentC : List DbCandle) (now : ℤ) :
    Option AlertData :=
  if s.priority_alerts_enabled then
    check_priority_signal
      (pcc_consRes s ia st symbol kline historical_volumes recentV recentC now).2
      (pcc_preliminaries1 st symbol) symbol
      (pcc_batch s ia st symbol kline historical_volumes recentV recentC now) now
  else none

/-- `AlertManager._process_closed_candle` (`alert_manager.py` lines 110–147):
counter update, pending-preliminary finalisation, volume check, consecutive
check, and priority composition, in source order.  `recentV`/`recentC` are the
recent-candle windows the two `_analyze_imbalance` DB calls would see. -/
def process_closed_candle (s : AlertSettings) (ia : ImbalanceSettings)
    (st : AlertManagerState) (symbol : String) (kline : Kline)
    (historical_volumes : List ℚ) (recentV recentC : List DbCandle) (now : ℤ) :
    List AlertData × AlertManagerState :=
  (pcc_batch s ia st symbol kline historical_volumes recentV recentC now ++
     (pcc_prioOpt s ia st symbol kline historical_volumes recentV recentC now).toList,
   { alert_cooldowns :=
       (pcc_consRes s ia st symbol kline historical_volumes recentV recentC now).2
     consecutive_long_counters :=
       update_consecutive_long_counter st.consecutive_long_counters symbol kline
     preliminary_signals := pcc_preliminaries1 st symbol })

/-- `AlertManager.process_kline_data` (`alert_manager.py` lines 74–108).  For an
unconfirmed tick, run the preliminary check and remember any signal; for a
confirmed tick, run the closed-candle pipeline (without a time manager the
closed test is the `confirm` flag itself). -/
def process_kline_data (s : AlertSettings) (ia : ImbalanceSettings)
    (st : AlertManagerState) (symbol : String) (kline : Kline)
    (historical_volumes : List ℚ) (recentV recentC : List DbCandle) (now : ℤ) :
    List AlertData × AlertManagerState :=
  if ¬kline.confirm then
    match check_preliminary_volume_signal s symbol kline historical_volumes now with
    | some a =>
      ([a], { st with preliminary_signals := mapSet st.preliminary_signals symbol a })
    | none => ([], st)
  else process_closed_candle s ia st symbol kline historical_volumes recentV recentC now

/-- `AlertManager.cleanup_old_data` (`alert_manager.py` lines 708–722): drop
every cooldown entry older than one hour. -/
def cleanup_old_data (st : AlertManagerState) (now : ℤ) : AlertManagerState :=
  { st with alert_cooldowns := fun k =>
      match st.alert_cooldowns k with
      | some t => if t < now - 60 * 60 * 1000 then none else some t
      | none => none }

/-! Basic lemmas about the partial-map model and the alert constructors. -/

theorem mapSet_self {α : Type} (d : String → Option α) (k : String) (v : α) :
    mapSet d k v k = some v := by
  simp [mapSet]

theorem mapSet_other {α : Type} (d : String → Option α) {k k' : String} (v : α)
    (h : k' ≠ k) : mapSet d k v k' = d k' := by
  simp [mapSet, h]

theorem mapErase_self {α : Type} (d : String → Option α) (k : String) :
    mapErase d k k = none := by
  simp [mapErase]

theorem mapErase_other {α : Type} (d : String → Option α) {k k' : String}
    (h : k' ≠ k) : mapErase d k k' = d k' := by
  simp [mapErase, h]

theorem ne_append_consecutive (s : String) : s ≠ s ++ "_consecutive" := by
  intro h
  have h2 : s.length = (s ++ "_consecutive").length := by rw [← h]
  rw [String.length_append] at h2
  have h3 : ("_consecutive" : String).length = 12 := by decide
  omega

theorem mem_option_toList {α : Type} {o : Option α} {a : α} :
    a ∈ o.toList ↔ o = some a := by
  cases o <;> simp [eq_comm]

theorem validate_volume_cooldown {s : AlertSettings} {kline : Kline}
    {hv : List ℚ} {lastTs : Option ℤ} {now : ℤ} {cv av : ℤ} {vr : ℚ}
    (h : validate_volume_alert s kline hv lastTs now = .valid cv av vr) :
    ∀ t, lastTs = some t → t = 0 ∨ s.alert_grouping_minutes * 60 * 1000 ≤ now - t := by
  intro t ht
  subst ht
  unfold validate_volume_alert at h
  dsimp only at h
  by_cases ht0 : t = 0
  · exact Or.inl ht0
  · right
    by_contra hlt
    push_neg at hlt
    simp [ht0, hlt] at h
    repeat' split at h
    all_goals simp_all

theorem check_volume_alert_some {s : AlertSettings} {cd : String → Option ℤ}
    {symbol : String} {kline : Kline} {hv : List ℚ} {now : ℤ}
    {imb : Option ImbalanceValue} {a : AlertData}
    (h : (check_volume_alert s cd symbol kline hv now imb).1 = some a) :
    a.alert_type = "volume_spike" ∧ a.timestamp = now ∧
      (check_volume_alert s cd symbol kline hv now imb).2 = mapSet cd symbol now ∧
      (∀ t, cd symbol = some t →
        t = 0 ∨ s.alert_grouping_minutes * 60 * 1000 ≤ now - t) := by
  unfold check_volume_alert at h ⊢
  dsimp only at h ⊢
  split at h
  · simp at h
  · rename_i cv av vr heq
    simp only [Option.some.injEq] at h
    subst h
    exact ⟨rfl, rfl, rfl, validate_volume_cooldown heq⟩

theorem check_volume_alert_none {s : AlertSettings} {cd : String → Option ℤ}
    {symbol : String} {kline : Kline} {hv : List ℚ} {now : ℤ}
    {imb : Option ImbalanceValue}
    (h : (check_volume_alert s cd symbol kline hv now imb).1 = none) :
    (check_volume_alert s cd symbol kline hv now imb).2 = cd := by
  unfold check_volume_alert at h ⊢
  dsimp only at h ⊢
  split at h
  · rfl
  · simp at h

theorem check_consecutive_some {s : AlertSettings} {cd cnt : String → Option ℤ}
    {symbol : String} {kline : Kline} {now : ℤ} {imb : Option ImbalanceValue}
    {a : AlertData}
    (h : (check_consecutive_long_alert s cd cnt symbol kline now imb).1 = some a) :
    a.alert_type = "consecutive_long" ∧ a.timestamp = now ∧
      a.consecutive_count = some ((cnt symbol).getD 0) ∧
      (check_consecutive_long_alert s cd cnt symbol kline now imb).2
        = mapSet cd (symbol ++ "_consecutive") now ∧
      (∀ t, cd (symbol ++ "_consecutive") = some t →
        t = 0 ∨ s.alert_grouping_minutes * 60 * 1000 ≤ now - t) := by
  unfold check_consecutive_long_alert at h ⊢
  dsimp only at h ⊢
  split at h
  · simp at h
  · rename_i hc
    split at h
    · simp at h
    · rename_i hcool
      simp only [Option.some.injEq] at h
      subst h
      rw [if_neg hc, if_neg hcool]
      refine ⟨rfl, rfl, rfl, rfl, ?_⟩
      intro t ht
      rw [ht] at hcool
      by_cases ht0 : t = 0
      · exact Or.inl ht0
      · right
        by_contra hlt
        push_neg at hlt
        simp [ht0, hlt] at hcool

theorem check_consecutive_none {s : AlertSettings} {cd cnt : String → Option ℤ}
    {symbol : String} {kline : Kline} {now : ℤ} {imb : Option ImbalanceValue}
    (h : (check_consecutive_long_alert s cd cnt symbol kline now imb).1 = none) :
    (check_consecutive_long_alert s cd cnt symbol kline now imb).2 = cd := by
  unfold check_consecutive_long_alert at h ⊢
  dsimp only at h ⊢
  split at h
  · rename_i hc
    rw [if_pos hc]
  · rename_i hc
    split at h
    · rename_i hcool
      rw [if_neg hc, if_pos hcool]
    · simp at h

theorem check_final_some {p : Option AlertData} {symbol : String} {kline : Kline}
    {now : ℤ} {a : AlertData}
    (h : check_final_volume_signal p symbol kline now = some a) :
    ∃ q, p = some q ∧ a.alert_type = "final_volume_spike" ∧
      a.is_true_signal = some (decide (kline.close > kline.open_)) ∧
      a.volume_ratio = q.volume_ratio ∧
      a.current_volume_usdt = q.current_volume_usdt ∧
      a.average_volume_usdt = q.average_volume_usdt ∧
      a.preliminary_timestamp = some q.timestamp := by
  cases p with
  | none => simp [check_final_volume_signal] at h
  | some q =>
    refine ⟨q, rfl, ?_⟩
    simp only [check_final_volume_signal, Option.some.injEq] at h
    subst h
    exact ⟨rfl, rfl, rfl, rfl, rfl, rfl⟩

theorem check_priority_some {cd : String → Option ℤ}
    {pre : String → Option AlertData} {symbol : String} {l : List AlertData}
    {now : ℤ} {a : AlertData}
    (h : check_priority_signal cd pre symbol l now = some a) :
    a.alert_type = "priority" := by
  unfold check_priority_signal at h
  dsimp only at h
  split at h
  · simp at h
  · split at h
    · simp at h
    · simp only [Option.some.injEq] at h
      subst h
      rfl

theorem check_preliminary_some {s : AlertSettings} {symbol : String}
    {kline : Kline} {hv : List ℚ} {now : ℤ} {a : AlertData}
    (h : check_preliminary_volume_signal s symbol kline hv now = some a) :
    a.alert_type = "preliminary_volume_spike" ∧ a.timestamp = now := by
  unfold check_preliminary_volume_signal at h
  dsimp only at h
  split at h
  · simp at h
  · split at h
    · simp at h
    · split at h
      · simp at h
      · split at h
        · simp at h
        · simp only [Option.some.injEq] at h
          subst h
          exact ⟨rfl, rfl⟩

theorem pcc_volRes_some {s : AlertSettings} {ia : ImbalanceSettings}
    {st : AlertManagerState} {symbol : String} {kline : Kline} {hv : List ℚ}
    {rV : List DbCandle} {now : ℤ} {v : AlertData}
    (h : (pcc_volRes s ia st symbol kline hv rV now).1 = some v) :
    v.alert_type = "volume_spike" ∧ v.timestamp = now ∧
      (pcc_volRes s ia st symbol kline hv rV now).2
        = mapSet st.alert_cooldowns symbol now ∧
      (∀ t, st.alert_cooldowns symbol = some t →
        t = 0 ∨ s.alert_grouping_minutes * 60 * 1000 ≤ now - t) := by
  unfold pcc_volRes at h ⊢
  split at h
  · rename_i hb
    rw [if_pos hb]
    exact check_volume_alert_some h
  · simp at h

theorem pcc_volRes_none {s : AlertSettings} {ia : ImbalanceSettings}
    {st : AlertManagerState} {symbol : String} {kline : Kline} {hv : List ℚ}
    {rV : List DbCandle} {now : ℤ}
    (h : (pcc_volRes s ia st symbol kline hv rV now).1 = none) :
    (pcc_volRes s ia st symbol kline hv rV now).2 = st.alert_cooldowns := by
  unfold pcc_volRes at h ⊢
  split at h
  · rename_i hb
    rw [if_pos hb]
    exact check_volume_alert_none h
  · rename_i hb
    rw [if_neg hb]

theorem pcc_consRes_some {s : AlertSettings} {ia : ImbalanceSettings}
    {st : AlertManagerState} {symbol : String} {kline : Kline} {hv : List ℚ}
    {rV rC : List DbCandle} {now : ℤ} {c : AlertData}
    (h : (pcc_consRes s ia st symbol kline hv rV rC now).1 = some c) :
    c.alert_type = "consecutive_long" ∧ c.timestamp = now ∧
      c.consecutive_count = some
        (((update_consecutive_long_counter st.consecutive_long_counters symbol kline)
          symbol).getD 0) ∧
      (pcc_consRes s ia st symbol kline hv rV rC now).2
        = mapSet (pcc_volRes s ia st symbol kline hv rV now).2
            (symbol ++ "_consecutive") now ∧
      (∀ t, (pcc_volRes s ia st symbol kline hv rV now).2 (symbol ++ "_consecutive")
          = some t → t = 0 ∨ s.alert_grouping_minutes * 60 * 1000 ≤ now - t) := by
  unfold pcc_consRes at h ⊢
  dsimp only at h ⊢
  split at h
  · rename_i hb
    rw [if_pos hb]
    exact check_consecutive_some h
  · simp at h

theorem pcc_consRes_none {s : AlertSettings} {ia : ImbalanceSettings}
    {st : AlertManagerState} {symbol : String} {kline : Kline} {hv : List ℚ}
    {rV rC : List DbCandle} {now : ℤ}
    (h : (pcc_consRes s ia st symbol kline hv rV rC now).1 = none) :
    (pcc_consRes s ia st symbol kline hv rV rC now).2
      = (pcc_volRes s ia st symbol kline hv rV now).2 := by
  unfold pcc_consRes at h ⊢
  dsimp only at h ⊢
  split at h
  · rename_i hb
    rw [if_pos hb]
    exact check_consecutive_none h
  · rename_i hb
    rw [if_neg hb]

theorem pcc_prioOpt_some {s : AlertSettings} {ia : ImbalanceSettings}
    {st : AlertManagerState} {symbol : String} {kline : Kline} {hv : List ℚ}
    {rV rC : List DbCandle} {now : ℤ} {q : AlertData}
    (h : pcc_prioOpt s ia st symbol kline hv rV rC now = some q) :
    q.alert_type = "priority" ∧
      check_priority_signal
        (pcc_consRes s ia st symbol kline hv rV rC now).2
        (pcc_preliminaries1 st symbol) symbol
        (pcc_batch s ia st symbol kline hv rV rC now) now = some q := by
  unfold pcc_prioOpt at h
  split at h
  · exact ⟨check_priority_some h, h⟩
  · simp at h

theorem pcc_finalOpt_some {st : AlertManagerState} {symbol : String}
    {kline : Kline} {now : ℤ} {f : AlertData}
    (h : pcc_finalOpt st symbol kline now = some f) :
    ∃ p, st.preliminary_signals symbol = some p ∧
      f.alert_type = "final_volume_spike" ∧
      f.is_true_signal = some (decide (kline.close > kline.open_)) ∧
      f.volume_ratio = p.volume_ratio ∧
      f.current_volume_usdt = p.current_volume_usdt ∧
      f.average_volume_usdt = p.average_volume_usdt ∧
      f.preliminary_timestamp = some p.timestamp := by
  unfold pcc_finalOpt at h
  cases hpre : st.preliminary_signals symbol with
  | none => rw [hpre] at h; simp at h
  | some p =>
    rw [hpre] at h
    obtain ⟨q, hq, rest⟩ := check_final_some h
    simp only [Option.some.injEq] at hq
    exact ⟨p, rfl, hq ▸ rest⟩

theorem process_counters_eq (s : AlertSettings) (ia : ImbalanceSettings)
    (st : AlertManagerState) (symbol : String) (kline : Kline) (hv : List ℚ)
    (rV rC : List DbCandle) (now : ℤ) :
    (process_closed_candle s ia st symbol kline hv rV rC now).2.consecutive_long_counters
      = update_consecutive_long_counter st.consecutive_long_counters symbol kline := rfl

/-- C4: processing a closed candle increments the per-symbol consecutive-long
counter when the candle is long (`close > open`) and resets it to zero otherwise. -/
theorem claim_C4 (s : AlertSettings) (ia : ImbalanceSettings)
    (st : AlertManagerState) (symbol : String) (kline : Kline) (hv : List ℚ)
    (rV rC : List DbCandle) (now : ℤ) :
    (((process_closed_candle s ia st symbol kline hv rV rC now).2.consecutive_long_counters
        symbol).getD 0)
      = if kline.close > kline.open_
        then ((st.consecutive_long_counters symbol).getD 0) + 1
        else 0 := by
  rw [process_counters_eq]
  unfold update_consecutive_long_counter
  by_cases hl : kline.close > kline.open_
  · rw [if_pos hl, if_pos hl, mapSet_self]
    rfl
  · rw [if_neg hl, if_neg hl, mapErase_self]
    rfl

/-- C3: on a closed candle, a FinalVolumeSpike is emitted iff a preliminary was
pending; it carries `is_true_signal = (close > open)`, the preliminary's volume
fields and timestamp, and the pending preliminary is cleared afterwards. -/
theorem claim_C3 (s : AlertSettings) (ia : ImbalanceSettings)
    (st : AlertManagerState) (symbol : String) (kline : Kline) (hv : List ℚ)
    (rV rC : List DbCandle) (now : ℤ) :
    ((∃ a ∈ (process_closed_candle s ia st symbol kline hv rV rC now).1,
        a.alert_type = "final_volume_spike") ↔
      (st.preliminary_signals symbol).isSome) ∧
    (∀ p, st.preliminary_signals symbol = some p →
      ∃ a ∈ (process_closed_candle s ia st symbol kline hv rV rC now).1,
        a.alert_type = "final_volume_spike" ∧
        a.is_true_signal = some (decide (kline.close > kline.open_)) ∧
        a.volume_ratio = p.volume_ratio ∧
        a.current_volume_usdt = p.current_volume_usdt ∧
        a.average_volume_usdt = p.average_volume_usdt ∧
        a.preliminary_timestamp = some p.timestamp) ∧
    ((st.preliminary_signals symbol).isSome →
      (process_closed_candle s ia st symbol kline hv rV rC now).2.preliminary_signals
        symbol = none) := by
  have hcore : ∀ p, st.preliminary_signals symbol = some p →
      ∃ a ∈ (process_closed_candle s ia st symbol kline hv rV rC now).1,
        a.alert_type = "final_volume_spike" ∧
        a.is_true_signal = some (decide (kline.close > kline.open_)) ∧
        a.volume_ratio = p.volume_ratio ∧
        a.current_volume_usdt = p.current_volume_usdt ∧
        a.average_volume_usdt = p.average_volume_usdt ∧
        a.preliminary_timestamp = some p.timestamp := by
    intro p hp
    cases hfa : check_final_volume_signal (some p) symbol kline now with
    | none => simp [check_final_volume_signal] at hfa
    | some fa =>
      have hfo : pcc_finalOpt st symbol kline now = some fa := by
        unfold pcc_finalOpt
        rw [hp]
        exact hfa
      obtain ⟨p', hp', hrest⟩ := pcc_finalOpt_some hfo
      rw [hp] at hp'
      simp only [Option.some.injEq] at hp'
      subst hp'
      refine ⟨fa, ?_, hrest⟩
      show fa ∈ (process_closed_candle s ia st symbol kline hv rV rC now).1
      unfold process_closed_candle pcc_batch
      rw [hfo]
      simp
  have hnone : st.preliminary_signals symbol = none →
      ∀ a ∈ (process_closed_candle s ia st symbol kline hv rV rC now).1,
        a.alert_type ≠ "final_volume_spike" := by
    intro hpre a ha hty
    have hfo : pcc_finalOpt st symbol kline now = none := by
      unfold pcc_finalOpt; rw [hpre]
    unfold process_closed_candle pcc_batch at ha
    rw [hfo] at ha
    simp only [Option.toList_none, List.nil_append, List.mem_append,
      mem_option_toList] at ha
    rcases ha with (h | h) | h
    · have := (pcc_volRes_some h).1
      rw [this] at hty
      exact absurd hty (by decide)
    · have := (pcc_consRes_some h).1
      rw [this] at hty
      exact absurd hty (by decide)
    · have := (pcc_prioOpt_some h).1
      rw [this] at hty
      exact absurd hty (by decide)
  refine ⟨⟨?_, ?_⟩, hcore, ?_⟩
  · rintro ⟨a, ha, hty⟩
    cases hpre : st.preliminary_signals symbol with
    | some p => rfl
    | none => exact absurd hty (hnone hpre a ha)
  · intro hsome
    obtain ⟨p, hp⟩ := Option.isSome_iff_exists.mp hsome
    obtain ⟨a, ha, hty, _⟩ := hcore p hp
    exact ⟨a, ha, hty⟩
  · intro hsome
    obtain ⟨p, hp⟩ := Option.isSome_iff_exists.mp hsome
    show pcc_preliminaries1 st symbol symbol = none
    unfold pcc_preliminaries1
    rw [hp]
    exact mapErase_self _ _

/-! Concrete fixtures used by witness theorems: default-like settings, a long
spike candle over a flat 500-USDT baseline, and a pending preliminary signal. -/

def wIa : ImbalanceSettings :=
  { min_gap_percentage := 1/10, min_strength := 1/2,
    fair_value_gap_enabled := true, order_block_enabled := true,
    breaker_block_enabled := true }

def wS : AlertSettings :=
  { volume_alerts_enabled := true, consecutive_alerts_enabled := true,
    priority_alerts_enabled := true, volume_multiplier := 2,
    min_volume_usdt := 1000, consecutive_long_count := 5,
    alert_grouping_minutes := 5, imbalance_enabled := false }

def wK : Kline :=
  { open_ := 100, high := 111, low := 99, close := 110, volume := 12, confirm := true }

def wHv : List ℚ := List.replicate 10 500

def wPre : AlertData :=
  { symbol := "BTCUSDT", alert_type := "preliminary_volume_spike", price := 110,
    volume_ratio := some (66/25), current_volume_usdt := some 1320,
    average_volume_usdt := some 500, consecutive_count := none,
    timestamp := 900000, close_timestamp := none, is_closed := false,
    is_true_signal := none, is_preliminary := some true, has_imbalance := none,
    imbalance_data := none,
    candle_data := some
      { open_ := 100, high := 111, low := 99, close := 110, volume := 12,
        alert_level := some 110 },
    preliminary_timestamp := none }

def wStPre : AlertManagerState :=
  { alert_cooldowns := fun _ => none
    consecutive_long_counters := fun _ => none
    preliminary_signals := fun k => if k = "BTCUSDT" then some wPre else none }

/-- Witness for C3 at a concrete pending preliminary and closing long candle. -/
theorem claim_C3_witness :
    ∃ a ∈ (process_closed_candle wS wIa wStPre "BTCUSDT" wK wHv [] [] 1000000).1,
      a.alert_type = "final_volume_spike" ∧
      a.is_true_signal = some (decide (wK.close > wK.open_)) ∧
      a.volume_ratio = wPre.volume_ratio ∧
      a.current_volume_usdt = wPre.current_volume_usdt ∧
      a.average_volume_usdt = wPre.average_volume_usdt ∧
      a.preliminary_timestamp = some wPre.timestamp :=
  (claim_C3 wS wIa wStPre "BTCUSDT" wK wHv [] [] 1000000).2.1 wPre (by simp [wStPre])

theorem analyze_fvg_none_of {ia : ImbalanceSettings} {candles : List DbCandle}
    (h : ¬ia.fair_value_gap_enabled = true ∨ candles.length < 3) :
    analyze_fair_value_gap ia candles = none := by
  unfold analyze_fair_value_gap
  rw [if_pos h]

theorem analyze_ob_none_of {ia : ImbalanceSettings} {candles : List DbCandle}
    (h : ¬ia.order_block_enabled = true ∨ candles.length < 10) :
    analyze_order_block ia candles = none := by
  unfold analyze_order_block
  rw [if_pos h]

theorem analyze_bb_none_of {ia : ImbalanceSettings} {candles : List DbCandle}
    (h : ¬ia.breaker_block_enabled = true ∨ candles.length < 15) :
    analyze_breaker_block ia candles = none := by
  unfold analyze_breaker_block
  rw [if_pos h]

theorem analyze_all_none_of_weak {ia : ImbalanceSettings} {candles : List DbCandle}
    (h1 : ∀ r, analyze_fair_value_gap ia candles = some r → r.strength < ia.min_strength)
    (h2 : ∀ r, analyze_order_block ia candles = some r → r.strength < ia.min_strength)
    (h3 : ∀ r, analyze_breaker_block ia candles = some r → r.strength < ia.min_strength) :
    analyze_all_imbalances ia candles = none := by
  have s1 : (if ia.fair_value_gap_enabled then
      match analyze_fair_value_gap ia candles with
      | some fvg => if fvg.strength ≥ ia.min_strength then some fvg else none
      | none => none
    else none) = none := by
    by_cases hb : ia.fair_value_gap_enabled
    · rw [if_pos hb]
      cases hf : analyze_fair_value_gap ia candles with
      | none => rfl
      | some r =>
        dsimp only
        rw [if_neg (not_le.mpr (h1 r hf))]
    · rw [if_neg hb]
  have s2 : (if ia.order_block_enabled then
      match analyze_order_block ia candles with
      | some ob => if ob.strength ≥ ia.min_strength then some ob else none
      | none => none
    else none) = none := by
    by_cases hb : ia.order_block_enabled
    · rw [if_pos hb]
      cases hf : analyze_order_block ia candles with
      | none => rfl
      | some r =>
        dsimp only
        rw [if_neg (not_le.mpr (h2 r hf))]
    · rw [if_neg hb]
  have s3 : (if ia.breaker_block_enabled then
      match analyze_breaker_block ia candles with
      | some bb => if bb.strength ≥ ia.min_strength then some bb else none
      | none => none
    else none) = none := by
    by_cases hb : ia.breaker_block_enabled
    · rw [if_pos hb]
      cases hf : analyze_breaker_block ia candles with
      | none => rfl
      | some r =>
        dsimp only
        rw [if_neg (not_le.mpr (h3 r hf))]
    · rw [if_neg hb]
  unfold analyze_all_imbalances
  dsimp only
  rw [s1, s2, s3]

/-- C9: the imbalance analyzer is deterministic on identical inputs; it returns
`none` when every enabled kind's window minimum (3 for FVG, 10 for order block,
15 for breaker block) is unmet, and `none` when every detected pattern's
strength is below `min_strength`. -/
theorem claim_C9 :
    (∀ (ia₁ ia₂ : ImbalanceSettings) (c₁ c₂ : List DbCandle),
      ia₁ = ia₂ → c₁ = c₂ →
        analyze_all_imbalances ia₁ c₁ = analyze_all_imbalances ia₂ c₂) ∧
    (∀ (ia : ImbalanceSettings) (candles : List DbCandle),
      (ia.fair_value_gap_enabled = true → candles.length < 3) →
      (ia.order_block_enabled = true → candles.length < 10) →
      (ia.breaker_block_enabled = true → candles.length < 15) →
      analyze_all_imbalances ia candles = none) ∧
    (∀ (ia : ImbalanceSettings) (candles : List DbCandle),
      (∀ r, analyze_fair_value_gap ia candles = some r → r.strength < ia.min_strength) →
      (∀ r, analyze_order_block ia candles = some r → r.strength < ia.min_strength) →
      (∀ r, analyze_breaker_block ia candles = some r → r.strength < ia.min_strength) →
      analyze_all_imbalances ia candles = none) := by
  refine ⟨?_, ?_, ?_⟩
  · intro ia₁ ia₂ c₁ c₂ h1 h2
    subst h1; subst h2; rfl
  · intro ia candles h1 h2 h3
    refine analyze_all_none_of_weak ?_ ?_ ?_
    · intro r hr
      by_cases hb : ia.fair_value_gap_enabled = true
      · rw [analyze_fvg_none_of (Or.inr (h1 hb))] at hr
        exact absurd hr (by simp)
      · rw [analyze_fvg_none_of (Or.inl hb)] at hr
        exact absurd hr (by simp)
    · intro r hr
      by_cases hb : ia.order_block_enabled = true
      · rw [analyze_ob_none_of (Or.inr (h2 hb))] at hr
        exact absurd hr (by simp)
      · rw [analyze_ob_none_of (Or.inl hb)] at hr
        exact absurd hr (by simp)
    · intro r hr
      by_cases hb : ia.breaker_block_enabled = true
      · rw [analyze_bb_none_of (Or.inr (h3 hb))] at hr
        exact absurd hr (by simp)
      · rw [analyze_bb_none_of (Or.inl hb)] at hr
        exact absurd hr (by simp)
  · intro ia candles h1 h2 h3
    exact analyze_all_none_of_weak h1 h2 h3

/-- Witness for C9 at the concrete settings `wIa` and a two-candle window. -/
theorem claim_C9_witness :
    analyze_all_imbalances wIa [] = none :=
  claim_C9.2.1 wIa [] (fun _ => by decide) (fun _ => by decide) (fun _ => by decide)

/-- C10: a zero baseline average never divides — the guarded ratio is defined as
0, so the multiplier threshold fails (for any positive multiplier) and neither
the closed-candle validation nor the preliminary check emits an alert. -/
theorem claim_C10 (s : AlertSettings) (cd : String → Option ℤ)
    (symbol : String) (kline : Kline) (hv : List ℚ) (lastTs : Option ℤ)
    (now : ℤ) (imb : Option ImbalanceValue)
    (hsum : hv.sum = 0) (hmul : 0 < s.volume_multiplier) :
    volumeRatioOf (kline.volume * kline.close) (hv.sum / hv.length) = 0 ∧
    (∀ cv av vr, validate_volume_alert s kline hv lastTs now ≠ .valid cv av vr) ∧
    (check_volume_alert s cd symbol kline hv now imb).1 = none ∧
    check_preliminary_volume_signal s symbol kline hv now = none := by
  have hratio : ∀ cv : ℚ, volumeRatioOf cv (hv.sum / hv.length) = 0 := by
    intro cv
    rw [hsum]
    simp [volumeRatioOf]
  have hval : ∀ lastTs', ∀ cv av vr,
      validate_volume_alert s kline hv lastTs' now ≠ .valid cv av vr := by
    intro lastTs' cv av vr h
    unfold validate_volume_alert at h
    dsimp only at h
    split at h
    · exact absurd h (by simp)
    · split at h
      · exact absurd h (by simp)
      · split at h
        · exact absurd h (by simp)
        · split at h
          · exact absurd h (by simp)
          · split at h
            · exact absurd h (by simp)
            · rename_i hge
              exact hge (by rw [hratio]; exact hmul)
  refine ⟨hratio _, hval lastTs, ?_, ?_⟩
  · unfold check_volume_alert
    cases hv2 : validate_volume_alert s kline hv (cd symbol) now with
    | invalid r => rfl
    | valid cv av vr => exact absurd hv2 (hval _ cv av vr)
  · unfold check_preliminary_volume_signal
    dsimp only
    split
    · rfl
    · split
      · rfl
      · split
        · rfl
        · split
          · rfl
          · rename_i hge
            exact absurd (by rw [hratio]; exact hmul) hge

/-- Witness for C10 on a ten-entry all-zero baseline. -/
theorem claim_C10_witness :
    (List.replicate 12 (0:ℚ)).sum = 0 ∧ (0:ℚ) < wS.volume_multiplier ∧
      check_preliminary_volume_signal wS "BTCUSDT" wK (List.replicate 12 0) 1000000
        = none := by
  refine ⟨by simp, by norm_num [wS], ?_⟩
  exact (claim_C10 wS (fun _ => none) "BTCUSDT" wK (List.replicate 12 0) none
    1000000 none (by simp) (by norm_num [wS])).2.2.2

def w6a : DbCandle :=
  { timestamp := 1, open_ := 109, high := 110, low := 108, close := 109,
    volume := 1, is_long := false, is_closed := true }

def w6b : DbCandle :=
  { timestamp := 2, open_ := 107, high := 109, low := 106, close := 108,
    volume := 1, is_long := true, is_closed := true }

def w6c : DbCandle :=
  { timestamp := 3, open_ := 105, high := 106, low := 104, close := 105,
    volume := 1, is_long := false, is_closed := true }

/-- The three-candle window of scenario S6. -/
def s6w : List DbCandle := [w6a, w6b, w6c]

/-- C8: over any window of at least three candles, the FVG detector returns a
bullish gap iff `W[-3].low > W[-1].high`, the middle candle is long and the
strength `(W[-3].low − W[-1].high)/W[-1].high × 100` clears `min_gap_percentage`
(top/bottom as stated; symmetrically for bearish); on the S6 window it yields a
bullish FVG with top 108, bottom 106 and strength 100/53 ≈ 1.887. -/
theorem claim_C8 :
    (∀ (ia : ImbalanceSettings) (candles : List DbCandle)
        (nc cc pc : DbCandle) (rest : List DbCandle),
      candles.reverse = nc :: cc :: pc :: rest →
      ia.fair_value_gap_enabled = true →
      (((∃ r, analyze_fair_value_gap ia candles = some r ∧ r.direction = .bullish) ↔
          (pc.low > nc.high ∧ cc.is_long = true ∧
            (pc.low - nc.high) / nc.high * 100 ≥ ia.min_gap_percentage)) ∧
        (∀ r, analyze_fair_value_gap ia candles = some r → r.direction = .bullish →
          r.strength = (pc.low - nc.high) / nc.high * 100 ∧
            r.top = pc.low ∧ r.bottom = nc.high) ∧
        ((∃ r, analyze_fair_value_gap ia candles = some r ∧ r.direction = .bearish) ↔
          (pc.high < nc.low ∧ cc.is_long = false ∧
            (nc.low - pc.high) / pc.high * 100 ≥ ia.min_gap_percentage)) ∧
        (∀ r, analyze_fair_value_gap ia candles = some r → r.direction = .bearish →
          r.strength = (nc.low - pc.high) / pc.high * 100 ∧
            r.top = nc.low ∧ r.bottom = pc.high))) ∧
    analyze_fair_value_gap wIa s6w = some
      { type_ := .fair_value_gap, direction := .bullish, strength := 100/53,
        top := 108, bottom := 106, timestamp := 2 } := by
  constructor
  · intro ia candles nc cc pc rest hrev henabled
    have hlen : ¬candles.length < 3 := by
      have hh : candles.reverse.length = candles.length := candles.length_reverse
      rw [hrev] at hh
      simp at hh
      omega
    have hguard : ¬(¬ia.fair_value_gap_enabled = true ∨ candles.length < 3) := by
      push_neg
      refine ⟨henabled, by omega⟩
    have heq : analyze_fair_value_gap ia candles =
        (match (if pc.low > nc.high ∧ cc.is_long then
            (if (pc.low - nc.high) / nc.high * 100 ≥ ia.min_gap_percentage then
              some { type_ := .fair_value_gap, direction := .bullish,
                     strength := (pc.low - nc.high) / nc.high * 100,
                     top := pc.low, bottom := nc.high, timestamp := cc.timestamp }
            else none)
          else none : Option ImbalanceValue) with
        | some r => some r
        | none =>
          if pc.high < nc.low ∧ ¬cc.is_long then
            (if (nc.low - pc.high) / pc.high * 100 ≥ ia.min_gap_percentage then
              some { type_ := .fair_value_gap, direction := .bearish,
                     strength := (nc.low - pc.high) / pc.high * 100,
                     top := nc.low, bottom := pc.high, timestamp := cc.timestamp }
            else none)
          else none) := by
      unfold analyze_fair_value_gap
      rw [if_neg hguard, hrev]
    by_cases hbl : pc.low > nc.high ∧ cc.is_long = true
    · by_cases hbg : (pc.low - nc.high) / nc.high * 100 ≥ ia.min_gap_percentage
      · rw [if_pos hbl, if_pos hbg] at heq
        dsimp only at heq
        refine ⟨⟨fun _ => ⟨hbl.1, hbl.2, hbg⟩, fun _ => ⟨_, heq, rfl⟩⟩, ?_, ⟨?_, ?_⟩, ?_⟩
        · intro r hr _
          rw [heq] at hr
          simp only [Option.some.injEq] at hr
          subst hr
          exact ⟨rfl, rfl, rfl⟩
        · rintro ⟨r, hr, hdir⟩
          rw [heq] at hr
          simp only [Option.some.injEq] at hr
          subst hr
          simp at hdir
        · rintro ⟨_, hlong, _⟩
          rw [hbl.2] at hlong
          simp at hlong
        · intro r hr hdir
          rw [heq] at hr
          simp only [Option.some.injEq] at hr
          subst hr
          simp at hdir
      · rw [if_pos hbl, if_neg hbg] at heq
        dsimp only at heq
        have hnotbear : ¬(pc.high < nc.low ∧ ¬cc.is_long = true) := by
          rintro ⟨_, hno⟩
          exact hno hbl.2
        rw [if_neg hnotbear] at heq
        refine ⟨⟨?_, ?_⟩, ?_, ⟨?_, ?_⟩, ?_⟩
        · rintro ⟨r, hr, _⟩
          rw [heq] at hr
          simp at hr
        · rintro ⟨_, _, hg⟩
          exact absurd hg hbg
        · intro r hr
          rw [heq] at hr
          simp at hr
        · rintro ⟨r, hr, _⟩
          rw [heq] at hr
          simp at hr
        · rintro ⟨_, hlong, _⟩
          rw [hbl.2] at hlong
          simp at hlong
        · intro r hr
          rw [heq] at hr
          simp at hr
    · rw [if_neg (by
        intro hcon
        exact hbl ⟨hcon.1, hcon.2⟩)] at heq
      dsimp only at heq
      by_cases hbr : pc.high < nc.low ∧ ¬cc.is_long = true
      · by_cases hbg : (nc.low - pc.high) / pc.high * 100 ≥ ia.min_gap_percentage
        · rw [if_pos hbr, if_pos hbg] at heq
          refine ⟨⟨?_, ?_⟩, ?_, ⟨?_, ?_⟩, ?_⟩
          · rintro ⟨r, hr, hdir⟩
            rw [heq] at hr
            simp only [Option.some.injEq] at hr
            subst hr
            simp at hdir
          · rintro ⟨hgt, hlong, _⟩
            exact (hbl ⟨hgt, hlong⟩).elim
          · intro r hr hdir
            rw [heq] at hr
            simp only [Option.some.injEq] at hr
            subst hr
            simp at hdir
          · intro _
            refine ⟨hbr.1, ?_, hbg⟩
            cases hcc : cc.is_long with
            | false => rfl
            | true => exact absurd hcc hbr.2
          · intro _
            exact ⟨_, heq, rfl⟩
          · intro r hr _
            rw [heq] at hr
            simp only [Option.some.injEq] at hr
            subst hr
            exact ⟨rfl, rfl, rfl⟩
        · rw [if_pos hbr, if_neg hbg] at heq
          refine ⟨⟨?_, ?_⟩, ?_, ⟨?_, ?_⟩, ?_⟩
          · rintro ⟨r, hr, _⟩
            rw [heq] at hr
            simp at hr
          · rintro ⟨hgt, hlong, _⟩
            exact (hbl ⟨hgt, hlong⟩).elim
          · intro r hr
            rw [heq] at hr
            simp at hr
          · rintro ⟨r, hr, _⟩
            rw [heq] at hr
            simp at hr
          · rintro ⟨_, _, hg⟩
            exact absurd hg hbg
          · intro r hr
            rw [heq] at hr
            simp at hr
      · rw [if_neg hbr] at heq
        refine ⟨⟨?_, ?_⟩, ?_, ⟨?_, ?_⟩, ?_⟩
        · rintro ⟨r, hr, _⟩
          rw [heq] at hr
          simp at hr
        · rintro ⟨hgt, hlong, _⟩
          exact (hbl ⟨hgt, hlong⟩).elim
        · intro r hr
          rw [heq] at hr
          simp at hr
        · rintro ⟨r, hr, _⟩
          rw [heq] at hr
          simp at hr
        · rintro ⟨hlt, hlong, _⟩
          exact (hbr ⟨hlt, by simp [hlong]⟩).elim
        · intro r hr
          rw [heq] at hr
          simp at hr
  · norm_num [analyze_fair_value_gap, s6w, w6a, w6b, w6c, wIa]

/-- Witness for C8: the S6 window satisfies the bullish characterisation. -/
theorem claim_C8_witness :
    ∃ r, analyze_fair_value_gap wIa s6w = some r ∧ r.direction = .bullish :=
  ((claim_C8.1 wIa s6w w6c w6b w6a [] rfl rfl).1).mpr
    (by norm_num [w6a, w6b, w6c, wIa])

def wKOpen : Kline :=
  { open_ := 100, high := 111, low := 99, close := 110, volume := 12, confirm := false }

def wKShortOpen : Kline :=
  { open_ := 100, high := 111, low := 99, close := 95, volume := 12, confirm := false }

/-- C5 (amended): on an unconfirmed tick, every qualifying crossing emits a
PreliminaryVolumeSpike and stores it as the symbol's unique pending signal,
overwriting any previous one — so at most one preliminary is in flight per
symbol — while a non-qualifying tick emits nothing and leaves the state
untouched.  There is no first-crossing suppression: n qualifying ticks emit n
preliminaries (see the counterexample). -/
theorem claim_C5 (s : AlertSettings) (ia : ImbalanceSettings)
    (st : AlertManagerState) (symbol : String) (kline : Kline) (hv : List ℚ)
    (rV rC : List DbCandle) (now : ℤ) (hopen : kline.confirm = false) :
    (∀ a, check_preliminary_volume_signal s symbol kline hv now = some a →
      (process_kline_data s ia st symbol kline hv rV rC now).1 = [a] ∧
      (process_kline_data s ia st symbol kline hv rV rC now).2.preliminary_signals
        symbol = some a ∧
      (∀ sym', sym' ≠ symbol →
        (process_kline_data s ia st symbol kline hv rV rC now).2.preliminary_signals
          sym' = st.preliminary_signals sym')) ∧
    (check_preliminary_volume_signal s symbol kline hv now = none →
      (process_kline_data s ia st symbol kline hv rV rC now).1 = [] ∧
      (process_kline_data s ia st symbol kline hv rV rC now).2 = st) := by
  have hcond : (¬kline.confirm = true) := by simp [hopen]
  constructor
  · intro a ha
    unfold process_kline_data
    rw [if_pos hcond, ha]
    exact ⟨rfl, mapSet_self _ _ _, fun sym' h => mapSet_other _ _ h⟩
  · intro hnone
    unfold process_kline_data
    rw [if_pos hcond, hnone]
    exact ⟨rfl, rfl⟩

/-- Witness for C5 (amended) on a concrete non-qualifying (short) open tick. -/
theorem claim_C5_witness :
    (process_kline_data wS wIa initialAlertState "BTCUSDT" wKShortOpen wHv [] [] 500000).1
        = [] ∧
      (process_kline_data wS wIa initialAlertState "BTCUSDT" wKShortOpen wHv [] [] 500000).2
        = initialAlertState :=
  (claim_C5 wS wIa initialAlertState "BTCUSDT" wKShortOpen wHv [] [] 500000 rfl).2
    (by norm_num [check_preliminary_volume_signal, wKShortOpen])

/-- Counterexample for C5 as stated: two successive qualifying open ticks of the
same minute both emit a PreliminaryVolumeSpike — the count is 2, not at most 1. -/
theorem claim_C5_counterexample :
    ((process_kline_data wS wIa initialAlertState "BTCUSDT" wKOpen wHv [] [] 500000).1 ++
        (process_kline_data wS wIa
          (process_kline_data wS wIa initialAlertState "BTCUSDT" wKOpen wHv [] [] 500000).2
          "BTCUSDT" wKOpen wHv [] [] 500001).1).countP
        (fun a => decide (a.alert_type = "preliminary_volume_spike")) = 2 ∧
    ¬(((process_kline_data wS wIa initialAlertState "BTCUSDT" wKOpen wHv [] [] 500000).1 ++
        (process_kline_data wS wIa
          (process_kline_data wS wIa initialAlertState "BTCUSDT" wKOpen wHv [] [] 500000).2
          "BTCUSDT" wKOpen wHv [] [] 500001).1).countP
        (fun a => decide (a.alert_type = "preliminary_volume_spike")) ≤ 1) := by
  norm_num +decide [process_kline_data, check_preliminary_volume_signal, wS, wIa,
    wKOpen, wHv, initialAlertState, volumeRatioOf, pyTrunc, pyRound2, roundHalfEven,
    mapSet]

/-- A per-symbol entry of the `price_analysis` dictionary built by
`PriceFilter.analyze_price_changes` (`src/backand/filter/filter_price.py`
lines 75–119). -/
structure PriceAnalysis where
  current_price : ℚ
  historical_price : ℚ
  price_drop : ℚ
  meets_criteria : Bool
deriving DecidableEq

/-- The observable effects of one `PriceFilter.update_watchlist` pass
(`filter_price.py` lines 121–188): the new watchlist, the symbols added to and
removed from the store, and the argument pair of the
`on_pairs_updated_callback` invocation, if the callback fires at all. -/
structure WatchlistUpdateResult where
  new_watchlist : List String
  added_pairs : List String
  removed_pairs : List String
  callback_invocation : Option (List String × List String)
deriving DecidableEq

/-- `PriceFilter.update_watchlist` (`filter_price.py` lines 121–188): qualifiers
form the new watchlist; symbols not previously present are persisted and
collected in `new_pairs`; watchlist entries no longer qualifying are removed
from the store; the callback is invoked only when `new_pairs` is nonempty, and
always with an empty removed set (`await self.on_pairs_updated_callback(new_pairs, set())`,
line 180). -/
def update_watchlist (price_analysis : List (String × PriceAnalysis))
    (current_watchlist : List String) : WatchlistUpdateResult :=
  let qualifiers := price_analysis.filter (fun p => p.2.meets_criteria)
  let new_watchlist : List String := qualifiers.map (fun p => p.1)
  let new_pairs : List String :=
    (qualifiers.filter (fun p => decide (p.1 ∉ current_watchlist))).map (fun p => p.1)
  let removed := current_watchlist.filter (fun sym => decide (sym ∉ new_watchlist))
  { new_watchlist := new_watchlist
    added_pairs := new_pairs
    removed_pairs := removed
    callback_invocation := if new_pairs.isEmpty then none else some (new_pairs, []) }

/-- C7 (amended): the curator persists additions and removals, but the
pairs-changed callback fires only when at least one symbol was added, and it is
always passed an empty removed set — removals are not driven through it. -/
theorem claim_C7 (price_analysis : List (String × PriceAnalysis))
    (current_watchlist : List String) :
    (∀ sym, sym ∈ (update_watchlist price_analysis current_watchlist).added_pairs ↔
      ((∃ x ∈ price_analysis, x.1 = sym ∧ x.2.meets_criteria = true) ∧
        sym ∉ current_watchlist)) ∧
    (∀ sym, sym ∈ (update_watchlist price_analysis current_watchlist).removed_pairs ↔
      (sym ∈ current_watchlist ∧
        ¬∃ x ∈ price_analysis, x.1 = sym ∧ x.2.meets_criteria = true)) ∧
    (∀ ps, (update_watchlist price_analysis current_watchlist).callback_invocation
        = some ps →
      ps.1 = (update_watchlist price_analysis current_watchlist).added_pairs ∧
        ps.2 = [] ∧
        (update_watchlist price_analysis current_watchlist).added_pairs ≠ []) ∧
    ((update_watchlist price_analysis current_watchlist).added_pairs = [] →
      (update_watchlist price_analysis current_watchlist).callback_invocation = none) := by
  have hnw : ∀ sym,
      sym ∈ (update_watchlist price_analysis current_watchlist).new_watchlist ↔
        ∃ x ∈ price_analysis, x.1 = sym ∧ x.2.meets_criteria = true := by
    intro sym
    unfold update_watchlist
    simp only [List.mem_map, List.mem_filter]
    constructor
    · rintro ⟨x, ⟨hx, hm⟩, hfst⟩
      exact ⟨x, hx, hfst, hm⟩
    · rintro ⟨x, hx, hfst, hm⟩
      exact ⟨x, ⟨hx, hm⟩, hfst⟩
  refine ⟨?_, ?_, ?_, ?_⟩
  · intro sym
    unfold update_watchlist
    simp only [List.mem_map, List.mem_filter, decide_eq_true_eq]
    constructor
    · rintro ⟨x, ⟨⟨hx, hm⟩, hnc⟩, hfst⟩
      subst hfst
      exact ⟨⟨x, hx, rfl, hm⟩, hnc⟩
    · rintro ⟨⟨x, hx, hfst, hm⟩, hnc⟩
      subst hfst
      exact ⟨x, ⟨⟨hx, hm⟩, hnc⟩, rfl⟩
  · intro sym
    have := hnw sym
    unfold update_watchlist at this ⊢
    simp only [List.mem_filter, decide_eq_true_eq]
    constructor
    · rintro ⟨hc, hnm⟩
      exact ⟨hc, fun hex => hnm (this.mpr hex)⟩
    · rintro ⟨hc, hnex⟩
      exact ⟨hc, fun hm => hnex (this.mp hm)⟩
  · intro ps hps
    unfold update_watchlist at hps ⊢
    dsimp only at hps ⊢
    by_cases he : ((price_analysis.filter (fun p => p.2.meets_criteria)).filter
        (fun p => decide (p.1 ∉ current_watchlist))).map (fun p => p.1) = []
    · rw [if_pos (by rw [he]; rfl)] at hps
      exact absurd hps (by simp)
    · rw [if_neg (by simpa [List.isEmpty_iff] using he)] at hps
      simp only [Option.some.injEq] at hps
      subst hps
      exact ⟨rfl, rfl, he⟩
  · intro he
    unfold update_watchlist at he ⊢
    dsimp only at he ⊢
    rw [if_pos (by rw [he]; rfl)]

def cexAnalysis : List (String × PriceAnalysis) :=
  [("BBBUSDT", { current_price := 90, historical_price := 100, price_drop := 10,
                 meets_criteria := true })]

def cexAnalysisFail : List (String × PriceAnalysis) :=
  [("AAAUSDT", { current_price := 100, historical_price := 100, price_drop := 0,
                 meets_criteria := false })]

/-- Counterexample for C7 as stated: with `AAAUSDT` in the watchlist no longer
qualifying and `BBBUSDT` newly qualifying, the symbol is removed from the store
but the callback receives `(["BBBUSDT"], ∅)`, not the removed set; with only
removals and no additions, the callback is not invoked at all. -/
theorem claim_C7_counterexample :
    (update_watchlist cexAnalysis ["AAAUSDT"]).removed_pairs = ["AAAUSDT"] ∧
    (update_watchlist cexAnalysis ["AAAUSDT"]).callback_invocation
      = some (["BBBUSDT"], []) ∧
    (update_watchlist cexAnalysis ["AAAUSDT"]).callback_invocation ≠
      some ((update_watchlist cexAnalysis ["AAAUSDT"]).added_pairs,
            (update_watchlist cexAnalysis ["AAAUSDT"]).removed_pairs) ∧
    (update_watchlist cexAnalysisFail ["AAAUSDT"]).removed_pairs = ["AAAUSDT"] ∧
    (update_watchlist cexAnalysisFail ["AAAUSDT"]).callback_invocation = none := by
  refine ⟨?_, ?_, ?_, ?_, ?_⟩ <;>
    norm_num +decide [update_watchlist, cexAnalysis, cexAnalysisFail]

/-- Witness for C7 (amended) at the counterexample scenario. -/
theorem claim_C7_witness :
    "AAAUSDT" ∈ (update_watchlist cexAnalysis ["AAAUSDT"]).removed_pairs :=
  ((claim_C7 cexAnalysis ["AAAUSDT"]).2.1 "AAAUSDT").mpr
    ⟨by decide, by decide⟩

/-- A row of the `kline_data` table as consulted by the reconciliation queries
(`src/backand/database/database_queries.py`): only `start_time` and `is_closed`
are read by `get_data_time_range`, `check_data_integrity_range` and the two
cleanup deletes; the OHLCV columns are never inspected there. -/
structure StoredCandle where
  start_time : ℤ
  is_closed : Bool
deriving DecidableEq

/-- Result of `DatabaseQueries.get_data_time_range` (`database_queries.py`
lines 570–597): MIN/MAX/COUNT over the symbol's closed candles. -/
structure TimeRangeResult where
  earliest_time : Option ℤ
  latest_time : Option ℤ
  total_count : ℕ
deriving DecidableEq

def get_data_time_range (db : List StoredCandle) : TimeRangeResult :=
  let closed := db.filter (fun c => c.is_closed)
  { earliest_time := (closed.map (fun c => c.start_time)).min?
    latest_time := (closed.map (fun c => c.start_time)).max?
    total_count := closed.length }

/-- `DatabaseQueries.cleanup_old_candles_before_time` (lines 376–384):
`DELETE … WHERE start_time < cutoff`; returns the kept rows and deleted count. -/
def cleanup_old_candles_before_time (db : List StoredCandle) (cutoff : ℤ) :
    List StoredCandle × ℕ :=
  (db.filter (fun c => decide (¬c.start_time < cutoff)),
   (db.filter (fun c => decide (c.start_time < cutoff))).length)

/-- `DatabaseQueries.cleanup_future_candles_after_time` (lines 386–394):
`DELETE … WHERE start_time >= cutoff`. -/
def cleanup_future_candles_after_time (db : List StoredCandle) (cutoff : ℤ) :
    List StoredCandle × ℕ :=
  (db.filter (fun c => decide (c.start_time < cutoff)),
   (db.filter (fun c => decide (cutoff ≤ c.start_time))).length)

/-- Result of `DatabaseQueries.check_data_integrity_range` (lines 323–357). -/
structure IntegrityResult where
  total_existing : ℤ
  total_expected : ℤ
  integrity_percentage : ℚ
  missing_count : ℤ
deriving DecidableEq

/-- `DatabaseQueries.check_data_integrity_range` (lines 323–357): closed candles
counted on the half-open window, one expected per minute (floored, at least 1). -/
def check_data_integrity_range (db : List StoredCandle)
    (start_time_ms end_time_ms : ℤ) : IntegrityResult :=
  let existing : ℤ :=
    (db.filter (fun c => c.is_closed ∧ start_time_ms ≤ c.start_time ∧
      c.start_time < end_time_ms)).length
  let expected : ℤ := max 1 (Int.fdiv (end_time_ms - start_time_ms) 60000)
  { total_existing := existing
    total_expected := expected
    integrity_percentage :=
      if expected > 0 then (existing : ℚ) / (expected : ℚ) * 100 else 0
    missing_count := max 0 (expected - existing) }

/-- An entry of the `actions_taken` list built by
`adjust_data_for_new_settings`; the payloads mirror the counts the source
interpolates into its action strings. -/
inductive AdjustAction where
  | no_data_found
  | deleted_old_data (count : ℕ)
  | deleted_future_data (count : ℕ)
  | needs_loading (missing : ℤ)
deriving DecidableEq

/-- Result of `DatabaseQueries.adjust_data_for_new_settings`, together with the
database rows left behind. -/
structure AdjustResult where
  required_start : ℤ
  required_end : ℤ
  actions_taken : List AdjustAction
  final_integrity : Option IntegrityResult
  db : List StoredCandle
deriving DecidableEq

/-- The required analysis window: `end = now − offset_minutes` (clamped at 0)
in ms, per `adjust_data_for_new_settings` lines 615–619. -/
def adjust_required_end (offset_minutes now : ℤ) : ℤ :=
  now - (max 0 offset_minutes) * 60 * 1000

/-- `start = end − analysis_hours` (clamped at a minimum of one hour). -/
def adjust_required_start (analysis_hours offset_minutes now : ℤ) : ℤ :=
  adjust_required_end offset_minutes now - (max 1 analysis_hours) * 60 * 60 * 1000

/-- The left trim of `adjust_data_for_new_settings` (lines 641–646): delete rows
older than the required start when the stored minimum lies before it. -/
def adjust_step1 (db : List StoredCandle) (start_time_ms : ℤ) :
    List StoredCandle × List AdjustAction :=
  match (get_data_time_range db).earliest_time with
  | some te =>
    if te < start_time_ms then
      let r := cleanup_old_candles_before_time db start_time_ms
      (r.1, if r.2 > 0 then [.deleted_old_data r.2] else [])
    else (db, [])
  | none => (db, [])

/-- The right trim (lines 648–653): delete rows at or after the required end
when the stored maximum lies beyond it (the range is taken on the original
store, the delete on the left-trimmed one, as in the source). -/
def adjust_step2 (db0 db1 : List StoredCandle) (end_time_ms : ℤ) :
    List StoredCandle × List AdjustAction :=
  match (get_data_time_range db0).latest_time with
  | some tl =>
    if tl > end_time_ms then
      let r := cleanup_future_candles_after_time db1 end_time_ms
      (r.1, if r.2 > 0 then [.deleted_future_data r.2] else [])
    else (db1, [])
  | none => (db1, [])

/-- `DatabaseQueries.adjust_data_for_new_settings` (`database_queries.py`
lines 599–671): clamp the settings, compute the required window
`[end − hours, end)`, bail out with `no_data_found` on an empty store, trim both
sides, then record `needs_loading` only when the integrity percentage falls
below 95. -/
def adjust_data_for_new_settings (db : List StoredCandle)
    (analysis_hours offset_minutes : ℤ) (now : ℤ) : AdjustResult :=
  let end_time_ms := adjust_required_end offset_minutes now
  let start_time_ms := adjust_required_start analysis_hours offset_minutes now
  if (get_data_time_range db).total_count = 0 then
    { required_start := start_time_ms, required_end := end_time_ms,
      actions_taken := [.no_data_found], final_integrity := none, db := db }
  else
    let s1 := adjust_step1 db start_time_ms
    let s2 := adjust_step2 db s1.1 end_time_ms
    let integrity := check_data_integrity_range s2.1 start_time_ms end_time_ms
    { required_start := start_time_ms, required_end := end_time_ms,
      actions_taken := s1.2 ++ s2.2 ++
        (if integrity.integrity_percentage < 95 then
          [AdjustAction.needs_loading integrity.missing_count] else []),
      final_integrity := some integrity, db := s2.1 }

theorem adjust_step1_no_needs (db : List StoredCandle) (start_time_ms : ℤ)
    (n : ℤ) : AdjustAction.needs_loading n ∉ (adjust_step1 db start_time_ms).2 := by
  unfold adjust_step1
  split
  · split
    · dsimp only
      split <;> simp
    · simp
  · simp

theorem adjust_step2_no_needs (db0 db1 : List StoredCandle) (end_time_ms : ℤ)
    (n : ℤ) : AdjustAction.needs_loading n ∉ (adjust_step2 db0 db1 end_time_ms).2 := by
  unfold adjust_step2
  split
  · split
    · dsimp only
      split <;> simp
    · simp
  · simp

theorem pct_of_missing_zero {X E : ℤ} (hE : 1 ≤ E) (h : max 0 (E - X) = 0) :
    (95:ℚ) ≤ (if E > 0 then (X:ℚ)/(E:ℚ)*100 else 0) := by
  have hle : E ≤ X := by omega
  have hpos : (0:ℤ) < E := by omega
  rw [if_pos hpos]
  have h1 : (1:ℚ) ≤ (X:ℚ)/(E:ℚ) := by
    rw [le_div_iff₀ (by exact_mod_cast hpos)]
    have : (E:ℚ) ≤ (X:ℚ) := by exact_mod_cast hle
    linarith
  nlinarith [h1]

/-- C6 (amended): after an `adjust_data_for_new_settings` pass, either the store
held no closed candles at all (`no_data_found` recorded, no integrity result),
or a final integrity result over the required window exists and a
`needs_loading` action was recorded exactly when its integrity percentage is
below 95 — in particular `missing_count = 0` always lands on the healthy side,
but up to 5% of the window may be missing with no action recorded. -/
theorem claim_C6 (db : List StoredCandle) (analysis_hours offset_minutes now : ℤ) :
    ((adjust_data_for_new_settings db analysis_hours offset_minutes now).final_integrity
        = none ∧
      AdjustAction.no_data_found ∈
        (adjust_data_for_new_settings db analysis_hours offset_minutes now).actions_taken) ∨
    (∃ I, (adjust_data_for_new_settings db analysis_hours offset_minutes now).final_integrity
        = some I ∧
      I = check_data_integrity_range
        (adjust_data_for_new_settings db analysis_hours offset_minutes now).db
        (adjust_data_for_new_settings db analysis_hours offset_minutes now).required_start
        (adjust_data_for_new_settings db analysis_hours offset_minutes now).required_end ∧
      ((∃ n, AdjustAction.needs_loading n ∈
          (adjust_data_for_new_settings db analysis_hours offset_minutes now).actions_taken) ↔
        I.integrity_percentage < 95) ∧
      (I.missing_count = 0 → 95 ≤ I.integrity_percentage)) := by
  by_cases hc : (get_data_time_range db).total_count = 0
  · left
    unfold adjust_data_for_new_settings
    dsimp only
    rw [if_pos hc]
    exact ⟨rfl, by simp⟩
  · right
    unfold adjust_data_for_new_settings
    dsimp only
    rw [if_neg hc]
    refine ⟨_, rfl, rfl, ⟨?_, ?_⟩, ?_⟩
    · rintro ⟨n, hn⟩
      simp only [List.mem_append] at hn
      by_contra hge
      rw [if_neg hge] at hn
      rcases hn with (hn | hn) | hn
      · exact adjust_step1_no_needs _ _ _ hn
      · exact adjust_step2_no_needs _ _ _ _ hn
      · simp at hn
    · intro hlt
      rw [if_pos hlt]
      exact ⟨_, List.mem_append_right _ (List.mem_singleton_self _)⟩
    · intro hmiss
      exact pct_of_missing_zero (le_max_left 1 _) hmiss

/-- A store holding 59 of the 60 closed minutes of the required one-hour window
`[3600000, 7200000)` (the minute starting at 7140000 is missing). -/
def db59 : List StoredCandle :=
  [⟨3600000, true⟩,
   ⟨3660000, true⟩,
   ⟨3720000, true⟩,
   ⟨3780000, true⟩,
   ⟨3840000, true⟩,
   ⟨3900000, true⟩,
   ⟨3960000, true⟩,
   ⟨4020000, true⟩,
   ⟨4080000, true⟩,
   ⟨4140000, true⟩,
   ⟨4200000, true⟩,
   ⟨4260000, true⟩,
   ⟨4320000, true⟩,
   ⟨4380000, true⟩,
   ⟨4440000, true⟩,
   ⟨4500000, true⟩,
   ⟨4560000, true⟩,
   ⟨4620000, true⟩,
   ⟨4680000, true⟩,
   ⟨4740000, true⟩,
   ⟨4800000, true⟩,
   ⟨4860000, true⟩,
   ⟨4920000, true⟩,
   ⟨4980000, true⟩,
   ⟨5040000, true⟩,
   ⟨5100000, true⟩,
   ⟨5160000, true⟩,
   ⟨5220000, true⟩,
   ⟨5280000, true⟩,
   ⟨5340000, true⟩,
   ⟨5400000, true⟩,
   ⟨5460000, true⟩,
   ⟨5520000, true⟩,
   ⟨5580000, true⟩,
   ⟨5640000, true⟩,
   ⟨5700000, true⟩,
   ⟨5760000, true⟩,
   ⟨5820000, true⟩,
   ⟨5880000, true⟩,
   ⟨5940000, true⟩,
   ⟨6000000, true⟩,
   ⟨6060000, true⟩,
   ⟨6120000, true⟩,
   ⟨6180000, true⟩,
   ⟨6240000, true⟩,
   ⟨6300000, true⟩,
   ⟨6360000, true⟩,
   ⟨6420000, true⟩,
   ⟨6480000, true⟩,
   ⟨6540000, true⟩,
   ⟨6600000, true⟩,
   ⟨6660000, true⟩,
   ⟨6720000, true⟩,
   ⟨6780000, true⟩,
   ⟨6840000, true⟩,
   ⟨6900000, true⟩,
   ⟨6960000, true⟩,
   ⟨7020000, true⟩,
   ⟨7080000, true⟩]

/-- Counterexample for C6 as stated: with 59 of 60 candles present the final
integrity reports `missing_count = 1`, yet no action at all is recorded —
`needs_loading` fires only below the 95% integrity threshold. -/
theorem claim_C6_counterexample :
    (check_data_integrity_range
        (adjust_data_for_new_settings db59 1 0 7200000).db
        (adjust_data_for_new_settings db59 1 0 7200000).required_start
        (adjust_data_for_new_settings db59 1 0 7200000).required_end).missing_count = 1 ∧
    (adjust_data_for_new_settings db59 1 0 7200000).actions_taken = [] ∧
    ¬((check_data_integrity_range
        (adjust_data_for_new_settings db59 1 0 7200000).db
        (adjust_data_for_new_settings db59 1 0 7200000).required_start
        (adjust_data_for_new_settings db59 1 0 7200000).required_end).missing_count = 0 ∨
      ∃ n, AdjustAction.needs_loading n ∈
        (adjust_data_for_new_settings db59 1 0 7200000).actions_taken) := by
  set_option maxRecDepth 100000 in
  norm_num +decide [adjust_data_for_new_settings, adjust_required_end,
    adjust_required_start, adjust_step1, adjust_step2, get_data_time_range,
    check_data_integrity_range, cleanup_old_candles_before_time,
    cleanup_future_candles_after_time, db59, Int.fdiv]

/-- Witness for C6 (amended) on the empty store: the pass records
`no_data_found`. -/
theorem claim_C6_witness :
    AdjustAction.no_data_found ∈
      (adjust_data_for_new_settings [] 1 0 7200000).actions_taken := by
  rcases claim_C6 [] 1 0 7200000 with ⟨_, hmem⟩ | ⟨I, hI, _⟩
  · exact hmem
  · rw [show (adjust_data_for_new_settings [] 1 0 7200000).final_integrity = none from
      by decide] at hI
    exact absurd hI (by simp)

theorem pick_fst_mem {v : AlertData} :
    ∀ (l : List AlertData) (acc : Option AlertData × Option AlertData),
      (l.foldl pickStep acc).1 = some v →
      (v ∈ l ∧ (v.alert_type = "volume_spike" ∨ v.alert_type = "final_volume_spike")) ∨
        acc.1 = some v := by
  intro l
  induction l with
  | nil => intro acc h; exact Or.inr h
  | cons hd tl ih =>
    intro acc h
    rw [List.foldl_cons] at h
    rcases ih (pickStep acc hd) h with ⟨hmem, hty⟩ | hacc
    · exact Or.inl ⟨List.mem_cons_of_mem _ hmem, hty⟩
    · unfold pickStep at hacc
      split at hacc
      · rename_i hty2
        simp only [Option.some.injEq] at hacc
        subst hacc
        exact Or.inl ⟨List.mem_cons_self _ _, hty2⟩
      · split at hacc
        · exact Or.inr hacc
        · exact Or.inr hacc

theorem pick_snd_mem {c : AlertData} :
    ∀ (l : List AlertData) (acc : Option AlertData × Option AlertData),
      (l.foldl pickStep acc).2 = some c →
      (c ∈ l ∧ c.alert_type = "consecutive_long") ∨ acc.2 = some c := by
  intro l
  induction l with
  | nil => intro acc h; exact Or.inr h
  | cons hd tl ih =>
    intro acc h
    rw [List.foldl_cons] at h
    rcases ih (pickStep acc hd) h with ⟨hmem, hty⟩ | hacc
    · exact Or.inl ⟨List.mem_cons_of_mem _ hmem, hty⟩
    · unfold pickStep at hacc
      split at hacc
      · exact Or.inr hacc
      · split at hacc
        · rename_i hty2
          simp only [Option.some.injEq] at hacc
          subst hacc
          exact Or.inl ⟨List.mem_cons_self _ _, hty2⟩
        · exact Or.inr hacc

theorem pickBatchAlerts_fst_mem {l : List AlertData} {v : AlertData}
    (h : (pickBatchAlerts l).1 = some v) :
    v ∈ l ∧ (v.alert_type = "volume_spike" ∨ v.alert_type = "final_volume_spike") := by
  unfold pickBatchAlerts at h
  rcases pick_fst_mem l (none, none) h with h' | h'
  · exact h'
  · simp at h'

theorem pickBatchAlerts_snd_mem {l : List AlertData} {c : AlertData}
    (h : (pickBatchAlerts l).2 = some c) :
    c ∈ l ∧ c.alert_type = "consecutive_long" := by
  unfold pickBatchAlerts at h
  rcases pick_snd_mem l (none, none) h with h' | h'
  · exact h'
  · simp at h'

theorem check_priority_signal_spec {cd : String → Option ℤ}
    {pre : String → Option AlertData} {symbol : String} {l : List AlertData}
    {now : ℤ} {a : AlertData}
    (h : check_priority_signal cd pre symbol l now = some a) :
    ∃ c, (pickBatchAlerts l).2 = some c ∧
      ((pickBatchAlerts l).1.isSome = true ∨
        check_recent_volume_alert_in_range cd pre symbol
          ((c.consecutive_count).getD 0) now = true) := by
  unfold check_priority_signal at h
  dsimp only at h
  split at h
  · simp at h
  · rename_i vres ccount heq
    split at h
    · simp at h
    · rename_i c hc
      refine ⟨c, hc, ?_⟩
      cases hp : (pickBatchAlerts l).1 with
      | some v => exact Or.inl rfl
      | none =>
        right
        by_contra hr
        have hrf : check_recent_volume_alert_in_range cd pre symbol
            ((c.consecutive_count).getD 0) now = false := Bool.eq_false_iff.mpr hr
        rw [hc, hp] at heq
        unfold validate_priority_alert at heq
        simp [hrf] at heq

theorem pcc_batch_types {s : AlertSettings} {ia : ImbalanceSettings}
    {st : AlertManagerState} {symbol : String} {kline : Kline} {hv : List ℚ}
    {rV rC : List DbCandle} {now : ℤ} {a : AlertData}
    (ha : a ∈ pcc_batch s ia st symbol kline hv rV rC now) :
    a.alert_type = "final_volume_spike" ∨ a.alert_type = "volume_spike" ∨
      a.alert_type = "consecutive_long" := by
  unfold pcc_batch at ha
  rcases List.mem_append.mp ha with h12 | h3
  · rcases List.mem_append.mp h12 with h1 | h2
    · obtain ⟨p, _, hty, _⟩ := pcc_finalOpt_some (mem_option_toList.mp h1)
      exact Or.inl hty
    · exact Or.inr (Or.inl (pcc_volRes_some (mem_option_toList.mp h2)).1)
  · exact Or.inr (Or.inr (pcc_consRes_some (mem_option_toList.mp h3)).1)

theorem pcc_preliminaries1_self (st : AlertManagerState) (symbol : String) :
    pcc_preliminaries1 st symbol symbol = none := by
  unfold pcc_preliminaries1
  cases h : st.preliminary_signals symbol with
  | some p => exact mapErase_self _ _
  | none => exact h

theorem pcc_consRes_cooldown_at_symbol (s : AlertSettings) (ia : ImbalanceSettings)
    (st : AlertManagerState) (symbol : String) (kline : Kline) (hv : List ℚ)
    (rV rC : List DbCandle) (now : ℤ)
    (hvol : (pcc_volRes s ia st symbol kline hv rV now).1 = none) :
    (pcc_consRes s ia st symbol kline hv rV rC now).2 symbol
      = st.alert_cooldowns symbol := by
  cases hcons : (pcc_consRes s ia st symbol kline hv rV rC now).1 with
  | some c =>
    rw [(pcc_consRes_some hcons).2.2.2.1,
      mapSet_other _ _ (ne_append_consecutive symbol), pcc_volRes_none hvol]
  | none =>
    rw [pcc_consRes_none hcons, pcc_volRes_none hvol]

/-- C1: a Priority alert is emitted on a closed candle only if a ConsecutiveLong
alert was emitted in the same batch and a volume signal is present — either a
VolumeSpike or FinalVolumeSpike in the same batch, or a nonzero volume-spike
cooldown timestamp (or a pending preliminary signal) lying within the last
consecutiveCount minutes of the current time. -/
theorem claim_C1 (s : AlertSettings) (ia : ImbalanceSettings)
    (st : AlertManagerState) (symbol : String) (kline : Kline) (hv : List ℚ)
    (rV rC : List DbCandle) (now : ℤ) :
    (∃ a ∈ (process_closed_candle s ia st symbol kline hv rV rC now).1,
        a.alert_type = "priority") →
    ∃ c ∈ (process_closed_candle s ia st symbol kline hv rV rC now).1,
      c.alert_type = "consecutive_long" ∧
      ((∃ v ∈ (process_closed_candle s ia st symbol kline hv rV rC now).1,
          v.alert_type = "volume_spike" ∨ v.alert_type = "final_volume_spike") ∨
        (∃ t, st.alert_cooldowns symbol = some t ∧ t ≠ 0 ∧
          now - t ≤ (c.consecutive_count).getD 0 * 60 * 1000) ∨
        (∃ p, st.preliminary_signals symbol = some p ∧
          now - p.timestamp ≤ (c.consecutive_count).getD 0 * 60 * 1000)) := by
  rintro ⟨a, ha, hty⟩
  have hsplit : a ∈ pcc_batch s ia st symbol kline hv rV rC now ∨
      a ∈ (pcc_prioOpt s ia st symbol kline hv rV rC now).toList :=
    List.mem_append.mp ha
  have hprio : pcc_prioOpt s ia st symbol kline hv rV rC now = some a := by
    rcases hsplit with hb | hp
    · rcases pcc_batch_types hb with h | h | h <;>
        (rw [h] at hty; exact absurd hty (by decide))
    · exact mem_option_toList.mp hp
  obtain ⟨-, hps⟩ := pcc_prioOpt_some hprio
  obtain ⟨c0, hc0, hvolrec⟩ := check_priority_signal_spec hps
  obtain ⟨hc0mem, hc0ty⟩ := pickBatchAlerts_snd_mem hc0
  refine ⟨c0, List.mem_append_left _ hc0mem, hc0ty, ?_⟩
  rcases hvolrec with hvol | hrecent
  · obtain ⟨v, hvsome⟩ := Option.isSome_iff_exists.mp hvol
    obtain ⟨hvmem, hvty⟩ := pickBatchAlerts_fst_mem hvsome
    exact Or.inl ⟨v, List.mem_append_left _ hvmem, hvty⟩
  · cases hvr : (pcc_volRes s ia st symbol kline hv rV now).1 with
    | some v' =>
      refine Or.inl ⟨v', ?_, Or.inl (pcc_volRes_some hvr).1⟩
      refine List.mem_append_left _ ?_
      unfold pcc_batch
      rw [hvr]
      simp
    | none =>
      right
      unfold check_recent_volume_alert_in_range at hrecent
      dsimp only at hrecent
      rw [pcc_preliminaries1_self] at hrecent
      rw [pcc_consRes_cooldown_at_symbol s ia st symbol kline hv rV rC now hvr] at hrecent
      simp only [Bool.or_false] at hrecent
      cases hcd : st.alert_cooldowns symbol with
      | none => rw [hcd] at hrecent; simp at hrecent
      | some t =>
        rw [hcd] at hrecent
        simp only [Bool.and_eq_true, decide_eq_true_eq] at hrecent
        exact Or.inl ⟨t, rfl, hrecent.1, hrecent.2⟩

/-- A state in which BTCUSDT already has four consecutive long closed candles. -/
def wSt4 : AlertManagerState :=
  { alert_cooldowns := fun _ => none
    consecutive_long_counters := fun k => if k = "BTCUSDT" then some 4 else none
    preliminary_signals := fun _ => none }

/-- Witness for C1: on the fifth long spike candle, the batch emits a priority
alert, and the theorem yields its consecutive-plus-volume prerequisites. -/
theorem claim_C1_witness :
    ∃ c ∈ (process_closed_candle wS wIa wSt4 "BTCUSDT" wK wHv [] [] 1000000).1,
      c.alert_type = "consecutive_long" ∧
      ((∃ v ∈ (process_closed_candle wS wIa wSt4 "BTCUSDT" wK wHv [] [] 1000000).1,
          v.alert_type = "volume_spike" ∨ v.alert_type = "final_volume_spike") ∨
        (∃ t, wSt4.alert_cooldowns "BTCUSDT" = some t ∧ t ≠ 0 ∧
          1000000 - t ≤ (c.consecutive_count).getD 0 * 60 * 1000) ∨
        (∃ p, wSt4.preliminary_signals "BTCUSDT" = some p ∧
          1000000 - p.timestamp ≤ (c.consecutive_count).getD 0 * 60 * 1000)) :=
  claim_C1 wS wIa wSt4 "BTCUSDT" wK wHv [] [] 1000000 (by
    norm_num +decide [Ne.symm (ne_append_consecutive "BTCUSDT"),
      process_closed_candle, pcc_batch, pcc_finalOpt, pcc_volRes, pcc_consRes,
      pcc_prioOpt, pcc_preliminaries1, check_volume_alert, validate_volume_alert,
      check_consecutive_long_alert, check_priority_signal, pickBatchAlerts, pickStep,
      check_recent_volume_alert_in_range, validate_priority_alert,
      update_consecutive_long_counter, mapSet, mapErase, analyze_imbalance_of,
      wS, wK, wHv, wIa, wSt4, volumeRatioOf, pyTrunc, pyRound2, roundHalfEven])

/-- One scheduled event of the alert manager for a fixed symbol: a kline tick
handed to `process_kline_data` (with the DB-derived inputs it would read), or a
run of the hourly `cleanup_old_data` job (`main.py periodic_cleanup`,
lines 852–869). -/
inductive TraceStep where
  | candle (kline : Kline) (historical_volumes : List ℚ)
      (recentV recentC : List DbCandle) (now : ℤ)
  | cleanup (now : ℤ)
deriving DecidableEq

/-- The wall-clock instant at which a trace step runs. -/
def stepNow : TraceStep → ℤ
  | .candle _ _ _ _ now => now
  | .cleanup now => now

/-- Execute one trace step against the manager state. -/
def runStep (s : AlertSettings) (ia : ImbalanceSettings) (symbol : String)
    (st : AlertManagerState) : TraceStep → List AlertData × AlertManagerState
  | .candle k hvs rV rC now => process_kline_data s ia st symbol k hvs rV rC now
  | .cleanup now => ([], cleanup_old_data st now)

/-- All alerts emitted along a trace, in emission order. -/
def traceAlerts (s : AlertSettings) (ia : ImbalanceSettings) (symbol : String) :
    AlertManagerState → List TraceStep → List AlertData
  | _, [] => []
  | st, stp :: rest =>
    (runStep s ia symbol st stp).1 ++
      traceAlerts s ia symbol (runStep s ia symbol st stp).2 rest

/-- Step times are positive and nondecreasing starting from `tcur` — the shape
of any real execution, where `now` comes from a monotone UTC clock. -/
def StepsOk : ℤ → List TraceStep → Prop
  | _, [] => True
  | tcur, stp :: rest =>
    tcur ≤ stepNow stp ∧ 0 < stepNow stp ∧ StepsOk (stepNow stp) rest

/-- The timestamps of the alerts of one kind, in emission order. -/
def alertTimes (ty : String) (l : List AlertData) : List ℤ :=
  (l.filter (fun a => decide (a.alert_type = ty))).map (fun a => a.timestamp)

/-- Every stored cooldown timestamp is positive and not in the future. -/
def CooldownBound (st : AlertManagerState) (tcur : ℤ) : Prop :=
  ∀ k t, st.alert_cooldowns k = some t → 0 < t ∧ t ≤ tcur

/-- If `lastOpt` records the last emission time under cooldown key `key`, the
stored cooldown still covers it, or the window has already fully elapsed. -/
def LastOk (st : AlertManagerState) (key : String) (lastOpt : Option ℤ)
    (tcur W : ℤ) : Prop :=
  ∀ tl, lastOpt = some tl → tl ≤ tcur ∧
    ((∃ t, st.alert_cooldowns key = some t ∧ tl ≤ t) ∨ W ≤ tcur - tl)

/-- The emission times of one alert class respect the window `W`: pairwise
`W`-separated, none before `tcur`, and all `W`-separated from the last
pre-trace emission. -/
def GoodTimes (times : List ℤ) (lastOpt : Option ℤ) (tcur W : ℤ) : Prop :=
  times.Pairwise (fun a b => W ≤ b - a) ∧
  (∀ t ∈ times, tcur ≤ t) ∧
  (∀ tl, lastOpt = some tl → ∀ t ∈ times, W ≤ t - tl)

theorem GoodTimes_mono {times : List ℤ} {lastOpt : Option ℤ} {tcur tcur' W : ℤ}
    (hle : tcur ≤ tcur') (h : GoodTimes times lastOpt tcur' W) :
    GoodTimes times lastOpt tcur W :=
  ⟨h.1, fun t ht => le_trans hle (h.2.1 t ht), h.2.2⟩

theorem alertTimes_append (ty : String) (l1 l2 : List AlertData) :
    alertTimes ty (l1 ++ l2) = alertTimes ty l1 ++ alertTimes ty l2 := by
  simp [alertTimes, List.filter_append]

theorem alertTimes_toList_none {ty : String} {o : Option AlertData}
    (h : ∀ a, o = some a → a.alert_type ≠ ty) :
    alertTimes ty o.toList = [] := by
  cases o with
  | none => rfl
  | some a => simp [alertTimes, h a rfl]

theorem alertTimes_toList_some {ty : String} {o : Option AlertData} {a : AlertData}
    (h : o = some a) (hty : a.alert_type = ty) :
    alertTimes ty o.toList = [a.timestamp] := by
  subst h
  simp [alertTimes, hty]

theorem mapSet_bound {α : Type} {d : String → Option α} {k key : String}
    {v t : α} (h : mapSet d k v key = some t) : d key = some t ∨ t = v := by
  unfold mapSet at h
  split at h
  · simp only [Option.some.injEq] at h
    exact Or.inr h.symm
  · exact Or.inl h

theorem cleanup_cooldowns (st : AlertManagerState) (now : ℤ) (k : String) :
    (cleanup_old_data st now).alert_cooldowns k
      = match st.alert_cooldowns k with
        | some t => if t < now - 60 * 60 * 1000 then none else some t
        | none => none := rfl

theorem process_kline_confirm_true {s : AlertSettings} {ia : ImbalanceSettings}
    {st : AlertManagerState} {symbol : String} {kline : Kline} {hvs : List ℚ}
    {rV rC : List DbCandle} {now : ℤ} (h : kline.confirm = true) :
    process_kline_data s ia st symbol kline hvs rV rC now
      = process_closed_candle s ia st symbol kline hvs rV rC now := by
  unfold process_kline_data
  rw [if_neg (by simp [h])]

theorem process_open_spec {s : AlertSettings} {ia : ImbalanceSettings}
    {st : AlertManagerState} {symbol : String} {kline : Kline} {hvs : List ℚ}
    {rV rC : List DbCandle} {now : ℤ} (h : kline.confirm = false) :
    (process_kline_data s ia st symbol kline hvs rV rC now).2.alert_cooldowns
      = st.alert_cooldowns ∧
    alertTimes "volume_spike"
      (process_kline_data s ia st symbol kline hvs rV rC now).1 = [] ∧
    alertTimes "consecutive_long"
      (process_kline_data s ia st symbol kline hvs rV rC now).1 = [] := by
  unfold process_kline_data
  rw [if_pos (by simp [h])]
  cases hp : check_preliminary_volume_signal s symbol kline hvs now with
  | none => exact ⟨rfl, rfl, rfl⟩
  | some a =>
    have hty := (check_preliminary_some hp).1
    refine ⟨rfl, ?_, ?_⟩ <;> simp [alertTimes, hty]

theorem pcc_volRes_cd_at_conskey (s : AlertSettings) (ia : ImbalanceSettings)
    (st : AlertManagerState) (symbol : String) (kline : Kline) (hvs : List ℚ)
    (rV : List DbCandle) (now : ℤ) :
    (pcc_volRes s ia st symbol kline hvs rV now).2 (symbol ++ "_consecutive")
      = st.alert_cooldowns (symbol ++ "_consecutive") := by
  cases hvr : (pcc_volRes s ia st symbol kline hvs rV now).1 with
  | some v =>
    rw [(pcc_volRes_some hvr).2.2.1,
      mapSet_other _ _ (Ne.symm (ne_append_consecutive symbol))]
  | none => rw [pcc_volRes_none hvr]

theorem pcc_volRes_cd_bound (s : AlertSettings) (ia : ImbalanceSettings)
    (st : AlertManagerState) (symbol : String) (kline : Kline) (hvs : List ℚ)
    (rV : List DbCandle) (now : ℤ) :
    ∀ key t, (pcc_volRes s ia st symbol kline hvs rV now).2 key = some t →
      st.alert_cooldowns key = some t ∨ t = now := by
  intro key t ht
  cases hvr : (pcc_volRes s ia st symbol kline hvs rV now).1 with
  | some v =>
    rw [(pcc_volRes_some hvr).2.2.1] at ht
    exact mapSet_bound ht
  | none =>
    rw [pcc_volRes_none hvr] at ht
    exact Or.inl ht

theorem process_closed_spec (s : AlertSettings) (ia : ImbalanceSettings)
    (st : AlertManagerState) (symbol : String) (kline : Kline) (hvs : List ℚ)
    (rV rC : List DbCandle) (now : ℤ) :
    ((alertTimes "volume_spike"
        (process_closed_candle s ia st symbol kline hvs rV rC now).1 = [] ∧
      (process_closed_candle s ia st symbol kline hvs rV rC now).2.alert_cooldowns
        symbol = st.alert_cooldowns symbol) ∨
     (alertTimes "volume_spike"
        (process_closed_candle s ia st symbol kline hvs rV rC now).1 = [now] ∧
      (process_closed_candle s ia st symbol kline hvs rV rC now).2.alert_cooldowns
        symbol = some now ∧
      (∀ t, st.alert_cooldowns symbol = some t →
        t = 0 ∨ s.alert_grouping_minutes * 60 * 1000 ≤ now - t))) ∧
    ((alertTimes "consecutive_long"
        (process_closed_candle s ia st symbol kline hvs rV rC now).1 = [] ∧
      (process_closed_candle s ia st symbol kline hvs rV rC now).2.alert_cooldowns
        (symbol ++ "_consecutive") = st.alert_cooldowns (symbol ++ "_consecutive")) ∨
     (alertTimes "consecutive_long"
        (process_closed_candle s ia st symbol kline hvs rV rC now).1 = [now] ∧
      (process_closed_candle s ia st symbol kline hvs rV rC now).2.alert_cooldowns
        (symbol ++ "_consecutive") = some now ∧
      (∀ t, st.alert_cooldowns (symbol ++ "_consecutive") = some t →
        t = 0 ∨ s.alert_grouping_minutes * 60 * 1000 ≤ now - t))) ∧
    (∀ key t, (process_closed_candle s ia st symbol kline hvs rV rC now).2.alert_cooldowns
        key = some t → st.alert_cooldowns key = some t ∨ t = now) := by
  have hsplit : (process_closed_candle s ia st symbol kline hvs rV rC now).1
      = ((pcc_finalOpt st symbol kline now).toList ++
          (pcc_volRes s ia st symbol kline hvs rV now).1.toList ++
          (pcc_consRes s ia st symbol kline hvs rV rC now).1.toList) ++
        (pcc_prioOpt s ia st symbol kline hvs rV rC now).toList := rfl
  have hcd : (process_closed_candle s ia st symbol kline hvs rV rC now).2.alert_cooldowns
      = (pcc_consRes s ia st symbol kline hvs rV rC now).2 := rfl
  have hfinV : alertTimes "volume_spike" (pcc_finalOpt st symbol kline now).toList = [] :=
    alertTimes_toList_none (fun a ha => by
      obtain ⟨p, _, hty, _⟩ := pcc_finalOpt_some ha
      rw [hty]; decide)
  have hfinC : alertTimes "consecutive_long" (pcc_finalOpt st symbol kline now).toList = [] :=
    alertTimes_toList_none (fun a ha => by
      obtain ⟨p, _, hty, _⟩ := pcc_finalOpt_some ha
      rw [hty]; decide)
  have hconsV : alertTimes "volume_spike"
      (pcc_consRes s ia st symbol kline hvs rV rC now).1.toList = []
      ∨ alertTimes "consecutive_long"
      (pcc_consRes s ia st symbol kline hvs rV rC now).1.toList = [] := Or.inl
    (alertTimes_toList_none (fun a ha => by rw [(pcc_consRes_some ha).1]; decide))
  have hconsV' : alertTimes "volume_spike"
      (pcc_consRes s ia st symbol kline hvs rV rC now).1.toList = [] :=
    alertTimes_toList_none (fun a ha => by rw [(pcc_consRes_some ha).1]; decide)
  have hvolC : alertTimes "consecutive_long"
      (pcc_volRes s ia st symbol kline hvs rV now).1.toList = [] :=
    alertTimes_toList_none (fun a ha => by rw [(pcc_volRes_some ha).1]; decide)
  have hprioV : alertTimes "volume_spike"
      (pcc_prioOpt s ia st symbol kline hvs rV rC now).toList = [] :=
    alertTimes_toList_none (fun a ha => by rw [(pcc_prioOpt_some ha).1]; decide)
  have hprioC : alertTimes "consecutive_long"
      (pcc_prioOpt s ia st symbol kline hvs rV rC now).toList = [] :=
    alertTimes_toList_none (fun a ha => by rw [(pcc_prioOpt_some ha).1]; decide)
  refine ⟨?_, ?_, ?_⟩
  · cases hvr : (pcc_volRes s ia st symbol kline hvs rV now).1 with
    | none =>
      left
      constructor
      · have hv0 : alertTimes "volume_spike"
            (pcc_volRes s ia st symbol kline hvs rV now).1.toList = [] := by
          rw [hvr]; rfl
        rw [hsplit, alertTimes_append, alertTimes_append, alertTimes_append,
          hfinV, hv0, hconsV', hprioV]
        rfl
      · rw [hcd]
        exact pcc_consRes_cooldown_at_symbol s ia st symbol kline hvs rV rC now hvr
    | some v =>
      right
      obtain ⟨hty, hts, hcd2, hpass⟩ := pcc_volRes_some hvr
      refine ⟨?_, ?_, hpass⟩
      · have hv1 : alertTimes "volume_spike"
            (pcc_volRes s ia st symbol kline hvs rV now).1.toList = [now] := by
          rw [alertTimes_toList_some hvr hty, hts]
        rw [hsplit, alertTimes_append, alertTimes_append, alertTimes_append,
          hfinV, hv1, hconsV', hprioV]
        rfl
      · rw [hcd]
        cases hcr : (pcc_consRes s ia st symbol kline hvs rV rC now).1 with
        | some c =>
          rw [(pcc_consRes_some hcr).2.2.2.1,
            mapSet_other _ _ (ne_append_consecutive symbol), hcd2, mapSet_self]
        | none =>
          rw [pcc_consRes_none hcr, hcd2, mapSet_self]
  · cases hcr : (pcc_consRes s ia st symbol kline hvs rV rC now).1 with
    | none =>
      left
      constructor
      · have hc0 : alertTimes "consecutive_long"
            (pcc_consRes s ia st symbol kline hvs rV rC now).1.toList = [] := by
          rw [hcr]; rfl
        rw [hsplit, alertTimes_append, alertTimes_append, alertTimes_append,
          hfinC, hvolC, hc0, hprioC]
        rfl
      · rw [hcd, pcc_consRes_none hcr]
        exact pcc_volRes_cd_at_conskey s ia st symbol kline hvs rV now
    | some c =>
      right
      obtain ⟨hty, hts, hcount, hcd2, hpass⟩ := pcc_consRes_some hcr
      refine ⟨?_, ?_, ?_⟩
      · have hc1 : alertTimes "consecutive_long"
            (pcc_consRes s ia st symbol kline hvs rV rC now).1.toList = [now] := by
          rw [alertTimes_toList_some hcr hty, hts]
        rw [hsplit, alertTimes_append, alertTimes_append, alertTimes_append,
          hfinC, hvolC, hc1, hprioC]
        rfl
      · rw [hcd, hcd2, mapSet_self]
      · intro t ht
        refine hpass t ?_
        rw [pcc_volRes_cd_at_conskey s ia st symbol kline hvs rV now]
        exact ht
  · intro key t ht
    rw [hcd] at ht
    cases hcr : (pcc_consRes s ia st symbol kline hvs rV rC now).1 with
    | some c =>
      rw [(pcc_consRes_some hcr).2.2.2.1] at ht
      rcases mapSet_bound ht with h | h
      · exact pcc_volRes_cd_bound s ia st symbol kline hvs rV now key t h
      · exact Or.inr h
    | none =>
      rw [pcc_consRes_none hcr] at ht
      exact pcc_volRes_cd_bound s ia st symbol kline hvs rV now key t ht

theorem cleanup_cd_bound {st : AlertManagerState} {now : ℤ} {k : String} {t : ℤ}
    (h : (cleanup_old_data st now).alert_cooldowns k = some t) :
    st.alert_cooldowns k = some t ∧ ¬ t < now - 60 * 60 * 1000 := by
  rw [cleanup_cooldowns] at h
  cases hcd : st.alert_cooldowns k with
  | none => rw [hcd] at h; exact absurd h (by simp)
  | some t' =>
    rw [hcd] at h
    dsimp only at h
    by_cases hlt : t' < now - 60 * 60 * 1000
    · rw [if_pos hlt] at h; exact absurd h (by simp)
    · rw [if_neg hlt] at h
      simp only [Option.some.injEq] at h
      subst h
      exact ⟨rfl, hlt⟩

theorem cleanup_cd_keep {st : AlertManagerState} {now : ℤ} {k : String} {t : ℤ}
    (hcd : st.alert_cooldowns k = some t) (hlt : ¬ t < now - 60 * 60 * 1000) :
    (cleanup_old_data st now).alert_cooldowns k = some t := by
  rw [cleanup_cooldowns, hcd]
  dsimp only
  rw [if_neg hlt]

theorem trace_good_aux (s : AlertSettings) (ia : ImbalanceSettings)
    (symbol key ty : String)
    (hW : s.alert_grouping_minutes * 60 * 1000 ≤ 3600000)
    (hty : ty = "volume_spike" ∨ ty = "consecutive_long")
    (hstep : ∀ st kline hvs rV rC now,
      (alertTimes ty (process_closed_candle s ia st symbol kline hvs rV rC now).1 = [] ∧
        (process_closed_candle s ia st symbol kline hvs rV rC now).2.alert_cooldowns key
          = st.alert_cooldowns key) ∨
      (alertTimes ty (process_closed_candle s ia st symbol kline hvs rV rC now).1 = [now] ∧
        (process_closed_candle s ia st symbol kline hvs rV rC now).2.alert_cooldowns key
          = some now ∧
        (∀ t, st.alert_cooldowns key = some t →
          t = 0 ∨ s.alert_grouping_minutes * 60 * 1000 ≤ now - t))) :
    ∀ (steps : List TraceStep) (st : AlertManagerState) (tcur : ℤ)
      (lastOpt : Option ℤ),
      StepsOk tcur steps → CooldownBound st tcur →
      LastOk st key lastOpt tcur (s.alert_grouping_minutes * 60 * 1000) →
      GoodTimes (alertTimes ty (traceAlerts s ia symbol st steps)) lastOpt tcur
        (s.alert_grouping_minutes * 60 * 1000) := by
  intro steps
  induction steps with
  | nil =>
    intro st tcur lastOpt _ _ _
    exact ⟨List.Pairwise.nil, by simp [alertTimes, traceAlerts], by
      intro tl _ t ht
      simp [alertTimes, traceAlerts] at ht⟩
  | cons stp rest ih =>
    intro st tcur lastOpt hok hcb hlast
    obtain ⟨hle, hpos, hok'⟩ := hok
    have htrace : traceAlerts s ia symbol st (stp :: rest)
        = (runStep s ia symbol st stp).1 ++
          traceAlerts s ia symbol (runStep s ia symbol st stp).2 rest := rfl
    rw [htrace, alertTimes_append]
    cases stp with
    | cleanup now =>
      dsimp only [stepNow] at hle hpos hok'
      have h1 : alertTimes ty (runStep s ia symbol st (TraceStep.cleanup now)).1 = [] := rfl
      rw [h1, List.nil_append]
      have hcb' : CooldownBound (cleanup_old_data st now) now := by
        intro k t ht
        obtain ⟨hold, _⟩ := cleanup_cd_bound ht
        obtain ⟨h0, hb⟩ := hcb k t hold
        exact ⟨h0, le_trans hb hle⟩
      have hlast' : LastOk (cleanup_old_data st now) key lastOpt now
          (s.alert_grouping_minutes * 60 * 1000) := by
        intro tl htl
        obtain ⟨htlb, hdisj⟩ := hlast tl htl
        refine ⟨le_trans htlb hle, ?_⟩
        rcases hdisj with ⟨t, hcd, htlt⟩ | hwin
        · by_cases hlt : t < now - 60 * 60 * 1000
          · right; omega
          · exact Or.inl ⟨t, cleanup_cd_keep hcd hlt, htlt⟩
        · right; omega
      exact GoodTimes_mono hle (ih (cleanup_old_data st now) now lastOpt hok' hcb' hlast')
    | candle kline hvs rV rC now =>
      dsimp only [stepNow] at hle hpos hok'
      cases hconf : kline.confirm with
      | false =>
        obtain ⟨hcd, hv0, hc0⟩ := @process_open_spec s ia st symbol kline hvs rV rC now hconf
        have h1 : alertTimes ty
            (runStep s ia symbol st (TraceStep.candle kline hvs rV rC now)).1 = [] := by
          rcases hty with h | h <;> rw [h]
          · exact hv0
          · exact hc0
        rw [h1, List.nil_append]
        have hst2 : (runStep s ia symbol st (TraceStep.candle kline hvs rV rC now)).2
            = (process_kline_data s ia st symbol kline hvs rV rC now).2 := rfl
        have hcb' : CooldownBound
            (process_kline_data s ia st symbol kline hvs rV rC now).2 now := by
          intro k t ht
          rw [hcd] at ht
          obtain ⟨h0, hb⟩ := hcb k t ht
          exact ⟨h0, le_trans hb hle⟩
        have hlast' : LastOk (process_kline_data s ia st symbol kline hvs rV rC now).2
            key lastOpt now (s.alert_grouping_minutes * 60 * 1000) := by
          intro tl htl
          obtain ⟨htlb, hdisj⟩ := hlast tl htl
          refine ⟨le_trans htlb hle, ?_⟩
          rcases hdisj with ⟨t, hcdk, htlt⟩ | hwin
          · exact Or.inl ⟨t, by rw [hcd]; exact hcdk, htlt⟩
          · right; omega
        rw [hst2]
        exact GoodTimes_mono hle
          (ih (process_kline_data s ia st symbol kline hvs rV rC now).2 now lastOpt
            hok' hcb' hlast')
      | true =>
        have hrun1 : (runStep s ia symbol st (TraceStep.candle kline hvs rV rC now)).1
            = (process_closed_candle s ia st symbol kline hvs rV rC now).1 := by
          show (process_kline_data s ia st symbol kline hvs rV rC now).1 = _
          rw [process_kline_confirm_true hconf]
        have hrun2 : (runStep s ia symbol st (TraceStep.candle kline hvs rV rC now)).2
            = (process_closed_candle s ia st symbol kline hvs rV rC now).2 := by
          show (process_kline_data s ia st symbol kline hvs rV rC now).2 = _
          rw [process_kline_confirm_true hconf]
        have hcb' : CooldownBound
            (process_closed_candle s ia st symbol kline hvs rV rC now).2 now := by
          intro k t ht
          rcases (process_closed_spec s ia st symbol kline hvs rV rC now).2.2 k t ht with
            hold | hnew
          · obtain ⟨h0, hb⟩ := hcb k t hold
            exact ⟨h0, le_trans hb hle⟩
          · subst hnew
            exact ⟨hpos, le_refl _⟩
        rcases hstep st kline hvs rV rC now with ⟨hz, hcdk⟩ | ⟨hone, hcdk, hpass⟩
        · rw [hrun1, hz, List.nil_append, hrun2]
          have hlast' : LastOk (process_closed_candle s ia st symbol kline hvs rV rC now).2
              key lastOpt now (s.alert_grouping_minutes * 60 * 1000) := by
            intro tl htl
            obtain ⟨htlb, hdisj⟩ := hlast tl htl
            refine ⟨le_trans htlb hle, ?_⟩
            rcases hdisj with ⟨t, hcdo, htlt⟩ | hwin
            · exact Or.inl ⟨t, by rw [hcdk]; exact hcdo, htlt⟩
            · right; omega
          exact GoodTimes_mono hle
            (ih (process_closed_candle s ia st symbol kline hvs rV rC now).2 now lastOpt
              hok' hcb' hlast')
        · rw [hrun1, hone, hrun2]
          have hlast' : LastOk (process_closed_candle s ia st symbol kline hvs rV rC now).2
              key (some now) now (s.alert_grouping_minutes * 60 * 1000) := by
            intro tl htl
            simp only [Option.some.injEq] at htl
            subst htl
            exact ⟨le_refl _, Or.inl ⟨now, hcdk, le_refl _⟩⟩
          have hrec := ih (process_closed_candle s ia st symbol kline hvs rV rC now).2
            now (some now) hok' hcb' hlast'
          obtain ⟨hpw, hlb, hsep⟩ := hrec
          have hsep' : ∀ t ∈ alertTimes ty
              (traceAlerts s ia symbol
                (process_closed_candle s ia st symbol kline hvs rV rC now).2 rest),
              s.alert_grouping_minutes * 60 * 1000 ≤ t - now := hsep now rfl
          refine ⟨?_, ?_, ?_⟩
          · exact List.pairwise_cons.mpr ⟨hsep', hpw⟩
          · intro t ht
            rcases List.mem_cons.mp ht with h | h
            · omega
            · exact le_trans hle (hlb t h)
          · intro tl htl t ht
            obtain ⟨htlb, hdisj⟩ := hlast tl htl
            have hWleNT : s.alert_grouping_minutes * 60 * 1000 ≤ now - tl := by
              rcases hdisj with ⟨t', hcdo, htlt⟩ | hwin
              · rcases hpass t' hcdo with h0 | hw
                · subst h0
                  obtain ⟨hpos', _⟩ := hcb key 0 hcdo
                  omega
                · omega
              · omega
            rcases List.mem_cons.mp ht with h | h
            · omega
            · have := hsep' t h
              omega

def s120 : AlertSettings :=
  { wS with alert_grouping_minutes := 120 }

def cexTrace : List TraceStep :=
  [TraceStep.candle wK wHv [] [] 10000000,
   TraceStep.cleanup 13600001,
   TraceStep.candle wK wHv [] [] 13600001]

set_option maxRecDepth 100000 in
/-- claim C2 (amended): provided `alert_grouping_minutes × 60_000` does not
exceed 3 600 000 ms — the horizon of the hourly cooldown cleanup — and step
times are positive and nondecreasing, a trace from the initial state emits no
two VolumeSpike alerts for a symbol within the window, and no two
ConsecutiveLong alerts within the window either; the classes live under the
independent cooldown keys `symbol` and `symbol ++ "_consecutive"`, and indeed
both fire together on a single closed candle without suppressing each other.
The original unconditioned claim is false: with `alert_grouping_minutes > 60`
the hourly `cleanup_old_data` erases a still-live cooldown (see the
counterexample). -/
theorem claim_C2 (s : AlertSettings) (ia : ImbalanceSettings) (symbol : String)
    (steps : List TraceStep)
    (hW : s.alert_grouping_minutes * 60 * 1000 ≤ 3600000)
    (hok : StepsOk 0 steps) :
    ((alertTimes "volume_spike"
        (traceAlerts s ia symbol initialAlertState steps)).Pairwise
      (fun a b => s.alert_grouping_minutes * 60 * 1000 ≤ b - a)) ∧
    ((alertTimes "consecutive_long"
        (traceAlerts s ia symbol initialAlertState steps)).Pairwise
      (fun a b => s.alert_grouping_minutes * 60 * 1000 ≤ b - a)) ∧
    (alertTimes "volume_spike"
        (traceAlerts wS wIa "BTCUSDT" wSt4 [TraceStep.candle wK wHv [] [] 1000000])
      = [1000000] ∧
     alertTimes "consecutive_long"
        (traceAlerts wS wIa "BTCUSDT" wSt4 [TraceStep.candle wK wHv [] [] 1000000])
      = [1000000]) := by
  refine ⟨?_, ?_, ?_⟩
  · exact (trace_good_aux s ia symbol symbol "volume_spike" hW (Or.inl rfl)
      (fun st k h rV rC n => (process_closed_spec s ia st symbol k h rV rC n).1)
      steps initialAlertState 0 none hok
      (fun k t ht => by simp [initialAlertState] at ht)
      (fun tl htl => by simp at htl)).1
  · exact (trace_good_aux s ia symbol (symbol ++ "_consecutive") "consecutive_long" hW
      (Or.inr rfl)
      (fun st k h rV rC n => (process_closed_spec s ia st symbol k h rV rC n).2.1)
      steps initialAlertState 0 none hok
      (fun k t ht => by simp [initialAlertState] at ht)
      (fun tl htl => by simp at htl)).1
  · constructor <;>
    norm_num +decide [Ne.symm (ne_append_consecutive "BTCUSDT"),
      traceAlerts, runStep, alertTimes, process_kline_data,
      process_closed_candle, pcc_batch, pcc_finalOpt, pcc_volRes, pcc_consRes,
      pcc_prioOpt, pcc_preliminaries1, check_volume_alert, validate_volume_alert,
      check_consecutive_long_alert, check_priority_signal, pickBatchAlerts, pickStep,
      check_recent_volume_alert_in_range, validate_priority_alert,
      update_consecutive_long_counter, mapSet, mapErase, analyze_imbalance_of,
      wS, wK, wHv, wIa, wSt4, volumeRatioOf, pyTrunc, pyRound2, roundHalfEven]

/-- Concrete run of claim C2: one spiking closed candle from the initial state
satisfies both pairwise-window properties, with the hypotheses discharged at
`alert_grouping_minutes = 5` and a single positive-time step. -/
theorem claim_C2_witness :
    wS.alert_grouping_minutes * 60 * 1000 ≤ 3600000 ∧
    StepsOk 0 [TraceStep.candle wK wHv [] [] 1000000] ∧
    ((alertTimes "volume_spike"
        (traceAlerts wS wIa "BTCUSDT" initialAlertState
          [TraceStep.candle wK wHv [] [] 1000000])).Pairwise
      (fun a b => wS.alert_grouping_minutes * 60 * 1000 ≤ b - a) ∧
     (alertTimes "consecutive_long"
        (traceAlerts wS wIa "BTCUSDT" initialAlertState
          [TraceStep.candle wK wHv [] [] 1000000])).Pairwise
      (fun a b => wS.alert_grouping_minutes * 60 * 1000 ≤ b - a)) :=
  ⟨by norm_num [wS], by norm_num [StepsOk, stepNow],
   ⟨(claim_C2 wS wIa "BTCUSDT" [TraceStep.candle wK wHv [] [] 1000000]
      (by norm_num [wS]) (by norm_num [StepsOk, stepNow])).1,
    (claim_C2 wS wIa "BTCUSDT" [TraceStep.candle wK wHv [] [] 1000000]
      (by norm_num [wS]) (by norm_num [StepsOk, stepNow])).2.1⟩⟩

set_option maxRecDepth 1000000 in
/-- claim C2 counterexample to the original wording: with
`alert_grouping_minutes = 120` a spiking candle at t = 10 000 000 sets the
cooldown, the hourly cleanup at t = 13 600 001 erases it (older than one
hour), and a second spiking candle at the same instant emits a second
VolumeSpike only 3 600 001 ms after the first — inside the 7 200 000 ms
window, violating the pairwise separation. -/
theorem claim_C2_counterexample :
    StepsOk 0 cexTrace ∧
    alertTimes "volume_spike"
        (traceAlerts s120 wIa "BTCUSDT" initialAlertState cexTrace)
      = [10000000, 13600001] ∧
    ¬ (alertTimes "volume_spike"
        (traceAlerts s120 wIa "BTCUSDT" initialAlertState cexTrace)).Pairwise
      (fun a b => s120.alert_grouping_minutes * 60 * 1000 ≤ b - a) := by
  have h2 : alertTimes "volume_spike"
      (traceAlerts s120 wIa "BTCUSDT" initialAlertState cexTrace)
      = [10000000, 13600001] := by
    norm_num +decide [Ne.symm (ne_append_consecutive "BTCUSDT"),
      traceAlerts, runStep, alertTimes, process_kline_data, cleanup_old_data,
      process_closed_candle, pcc_batch, pcc_finalOpt, pcc_volRes, pcc_consRes,
      pcc_prioOpt, pcc_preliminaries1, check_volume_alert, validate_volume_alert,
      check_consecutive_long_alert, check_priority_signal, pickBatchAlerts, pickStep,
      check_recent_volume_alert_in_range, validate_priority_alert,
      update_consecutive_long_counter, mapSet, mapErase, analyze_imbalance_of,
      s120, wS, wK, wHv, wIa, initialAlertState, cexTrace,
      volumeRatioOf, pyTrunc, pyRound2, roundHalfEven]
  refine ⟨by norm_num [StepsOk, stepNow, cexTrace], h2, ?_⟩
  rw [h2]
  intro hpw
  have hbad := (List.pairwise_cons.mp hpw).1 13600001 (List.mem_singleton_self _)
  norm_num [s120, wS] at hbad
